import Mathlib

/-!
Verification development for the snobbots backend RAG core.

Python strings are modelled as lists of Unicode code points (`Str := List Nat`).
The Python string methods used by the repository (`lower`, `strip`,
`replace(" ", "_")`, `split(".")`, truthiness) are embedded below; `lower` is
modelled on the ASCII range, which covers every letter the repository
manipulates.  External collaborators (the embedding service, the vector index,
the chat model, the document extractors, `json.loads`, `uuid4`) are supplied as
explicit environment records so that each theorem quantifies over their
behaviour.
-/

namespace Snobbots

/-- Python string, as a list of Unicode code points. -/
abbrev Str := List Nat

/-- Embed a Lean string literal as a `Str`. -/
def lit (s : String) : Str := s.toList.map Char.toNat

/-- Python whitespace test (`str.strip` default set): space, tab, LF, VT, FF, CR. -/
def wsB (c : Nat) : Bool := c == 32 || c == 9 || c == 10 || c == 11 || c == 12 || c == 13

/-- ASCII lower-casing of one code point (model of Python `str.lower`). -/
def lowerChar (c : Nat) : Nat := if 65 ≤ c ∧ c ≤ 90 then c + 32 else c

/-- Model of Python `str.lower`. -/
def strLower (s : Str) : Str := s.map lowerChar

/-- One step of `.replace(" ", "_")`: space (32) becomes underscore (95). -/
def spaceToUnderscore (c : Nat) : Nat := if c = 32 then 95 else c

/-- Model of Python `str.replace(" ", "_")`. -/
def replaceSpace (s : Str) : Str := s.map spaceToUnderscore

/-- Drop leading whitespace (left part of Python `str.strip`). -/
def stripLeft (s : Str) : Str := s.dropWhile wsB

/-- Drop trailing whitespace (right part of Python `str.strip`), structurally. -/
def stripRight : Str → Str
  | [] => []
  | a :: t =>
    match stripRight t with
    | [] => if wsB a then [] else [a]
    | b :: r => a :: b :: r

/-- Model of Python `str.strip()`. -/
def pyStrip (s : Str) : Str := stripRight (stripLeft s)

/-- Namespace derivation as written in `pdf_processor.process_and_index_data`
(line 56): `chatbot_title.strip().lower().replace(" ", "_")`. -/
def ingestNamespaceOf (chatbot_title : Str) : Str :=
  replaceSpace (strLower (pyStrip chatbot_title))

/-- Namespace derivation as written in `rag_helper.generate_response`
(line 26): `chatbot_title.strip().lower().replace(" ", "_")`. -/
def queryNamespaceOf (chatbot_title : Str) : Str :=
  replaceSpace (strLower (pyStrip chatbot_title))

/-- Namespace derivation as written in `routes.flush_namespace` (lines 724-725):
the title is lower-cased first, then `strip().replace(" ", "_")`. -/
def flushNamespaceOf (chatbot_title : Str) : Str :=
  replaceSpace (pyStrip (strLower chatbot_title))

/-- Namespace derivation modelled from the words of the spec sentence
"derived deterministically from the bot title (lower-cased,
whitespace→underscore)": lower-case every character and replace every
whitespace character by an underscore, with no stripping.  Used only to
compare the spec wording against the source behaviour. -/
def specNamespaceOf (chatbot_title : Str) : Str :=
  (strLower chatbot_title).map (fun c => if wsB c then 95 else c)

/-- Index (container) naming, `f"snobbots-{user_id.lower().replace(' ', '_')}"`
as written in `pdf_processor.py` line 42, `rag_helper.py` line 16 and
`routes.py` line 727. -/
def indexNameOf (user_id : Str) : Str :=
  lit "snobbots-" ++ replaceSpace (strLower user_id)

/-- Decimal rendering of a natural number, for embedded f-strings. -/
def natLit (n : Nat) : Str := lit (Nat.repr n)

/-- Python values, as far as the RAG core inspects them. -/
inductive PyVal where
  | pyStr (s : Str)
  | pyInt (n : Int)
  | pyBool (b : Bool)
  | pyNone
  | pyList (items : List PyVal)
  | pyDict (fields : List (Str × PyVal))

/-- Python exceptions raised or propagated by the embedded code. -/
inductive PyErr where
  | valueError (msg : Str)
  | typeError (msg : Str)
  | attributeError (msg : Str)
  | keyError (key : Str)
  | httpError (status : Nat) (detail : Str)
  | upstreamError (msg : Str)
deriving DecidableEq

/-- Model of `str(e)` on an exception (Starlette HTTPException renders as
"status: detail", the others as their message). -/
def pyErrStr : PyErr → Str
  | .valueError msg => msg
  | .typeError msg => msg
  | .attributeError msg => msg
  | .keyError key => key
  | .httpError status detail => natLit status ++ lit ": " ++ detail
  | .upstreamError msg => msg

/-- Association-list lookup, modelling Python dict access by key. -/
def assocGet {α : Type} : List (Str × α) → Str → Option α
  | [], _ => none
  | (k, v) :: rest, key => if k = key then some v else assocGet rest key

/-- Python truthiness of the values the pipeline branches on. -/
def pyTruthyB : PyVal → Bool
  | .pyStr s => !s.isEmpty
  | .pyInt n => n != 0
  | .pyBool b => b
  | .pyNone => false
  | .pyList items => !items.isEmpty
  | .pyDict fields => !fields.isEmpty

/-- Python iteration (`for item in v`): lists yield their items, strings their
one-character strings, dicts their keys; other values raise TypeError. -/
def pyIter : PyVal → Except PyErr (List PyVal)
  | .pyList items => .ok items
  | .pyStr s => .ok (s.map (fun c => .pyStr [c]))
  | .pyDict fields => .ok (fields.map (fun kv => .pyStr kv.1))
  | _ => .error (.typeError (lit "object is not iterable"))

/-- Model of `value.strip()`: AttributeError unless the value is a string. -/
def pyStripVal : PyVal → Except PyErr Str
  | .pyStr s => .ok (pyStrip s)
  | _ => .error (.attributeError (lit "object has no attribute strip"))

/-- Model of `str.split(sep)` for a one-character separator. -/
def splitOnChar (sep : Nat) : Str → List Str
  | [] => [[]]
  | c :: rest =>
    match splitOnChar sep rest with
    | [] => [[c]]
    | h :: t => if c = sep then [] :: h :: t else (c :: h) :: t

/-- A chunk queued for embedding: its text and its provenance label. -/
structure Chunk where
  text : Str
  source : Str
deriving DecidableEq

/-- A Pinecone vector record as built in `pdf_processor.py` lines 130-138. -/
structure VectorRecord where
  id : Str
  values : List Int
  chunk_text : Str
  source : Str
  user_id : Str
deriving DecidableEq

/-- Calls the ingestion path makes against external services, in order. -/
inductive IngestEvent where
  | createIndexCall (name : Str)
  | embedCall (input : Str)
  | upsertCall (records : List VectorRecord) (ns : Str)
deriving DecidableEq

/-- External collaborators of `process_and_index_data`: the recursive text
splitter, the document extractors, `json.loads`, the embedding service
(returning a vector and the usage tokens the service reports), and the
`uuid4().hex[:8]` suffix minted for the i-th chunk. -/
structure IngestEnv where
  existingIndexes : List Str
  splitText : Str → List Str
  pdfExtract : Str → Str
  docxExtract : Str → Str
  decodeUtf8 : Str → Str
  jsonLoads : Str → Except Str PyVal
  embed : Str → Except Str (List Int × Nat)
  uuidHex8 : Nat → Str

/-- Chunks contributed by a file upload (`pdf_processor.py` lines 62-81). -/
def fileChunks (env : IngestEnv) (filename file_bytes : Option Str) :
    Except PyErr (List Chunk) :=
  match file_bytes, filename with
  | some fb, some fn =>
    if !fb.isEmpty && !fn.isEmpty then
      let ext := (splitOnChar 46 (strLower fn)).getLastD []
      if ext = lit "pdf" then
        .ok ((env.splitText (env.pdfExtract fb)).map (fun c => ⟨c, fn⟩))
      else if ext = lit "docx" then
        .ok ((env.splitText (env.docxExtract fb)).map (fun c => ⟨c, fn⟩))
      else if ext = lit "txt" then
        .ok ((env.splitText (env.decodeUtf8 fb)).map (fun c => ⟨c, fn⟩))
      else
        .error (.valueError (lit "Unsupported file type: " ++ ext))
    else .ok []
  | _, _ => .ok []

/-- Chunks contributed by raw text (`pdf_processor.py` lines 84-90). -/
def rawChunks (env : IngestEnv) (raw_text : Option Str) (source_type : Option Str) :
    List Chunk :=
  match raw_text with
  | some rt =>
    if !rt.isEmpty then
      let src :=
        match source_type with
        | some st => if !st.isEmpty then st else lit "raw_text"
        | none => lit "raw_text"
      (env.splitText rt).map (fun c => ⟨c, src⟩)
    else []
  | none => []

/-- Normalisation of the `qa_json` argument (`pdf_processor.py` lines 94-103):
a string is parsed with `json.loads`, a list is passed through, anything else
raises ValueError. -/
def qaNormalize (env : IngestEnv) : PyVal → Except PyErr PyVal
  | .pyStr s =>
    match env.jsonLoads s with
    | .ok v => .ok v
    | .error e => .error (.valueError (lit "Invalid QA JSON string format: " ++ e))
  | .pyList items => .ok (.pyList items)
  | _ => .error (.valueError (lit "qa_json must be a JSON string or a list"))

/-- The per-item validation `isinstance(item, dict) and "question" in item and
"answer" in item` (`pdf_processor.py` line 106). -/
def isQAItemB : PyVal → Bool
  | .pyDict fields =>
    (assocGet fields (lit "question")).isSome && (assocGet fields (lit "answer")).isSome
  | _ => false

/-- Python `item.get(key, default)` on a validated dict item. -/
def pyGetD (v : PyVal) (key : Str) (dflt : PyVal) : PyVal :=
  match v with
  | .pyDict fields => (assocGet fields key).getD dflt
  | _ => dflt

/-- The loop of `pdf_processor.py` lines 109-113: strip each question and
answer and keep `"Q: {q}\nA: {a}"` when both are non-empty. -/
def buildQAChunks : List PyVal → Except PyErr (List Chunk)
  | [] => .ok []
  | item :: rest =>
    match pyStripVal (pyGetD item (lit "question") (.pyStr [])) with
    | .error e => .error e
    | .ok q =>
      match pyStripVal (pyGetD item (lit "answer") (.pyStr [])) with
      | .error e => .error e
      | .ok a =>
        match buildQAChunks rest with
        | .error e => .error e
        | .ok cs =>
          .ok (if !q.isEmpty && !a.isEmpty then
                 ⟨lit "Q: " ++ q ++ lit "\n" ++ lit "A: " ++ a, lit "qa_json"⟩ :: cs
               else cs)

/-- Chunks contributed by `qa_json` (`pdf_processor.py` lines 93-113). -/
def qaChunks (env : IngestEnv) (qa_json : Option PyVal) : Except PyErr (List Chunk) :=
  match qa_json with
  | none => .ok []
  | some v =>
    if pyTruthyB v then
      match qaNormalize env v with
      | .error e => .error e
      | .ok qa_pairs =>
        match pyIter qa_pairs with
        | .error e => .error e
        | .ok items =>
          if items.all isQAItemB then buildQAChunks items
          else .error (.valueError (lit "qa_json must be a list of \x7bquestion, answer\x7d objects"))
    else .ok []

/-- The whole chunk-collection phase of `process_and_index_data`
(`pdf_processor.py` lines 59-113), in source order: file, raw text, QA. -/
def collectChunks (env : IngestEnv) (filename file_bytes raw_text : Option Str)
    (qa_json : Option PyVal) (source_type : Option Str) : Except PyErr (List Chunk) :=
  match fileChunks env filename file_bytes with
  | .error e => .error e
  | .ok fcs =>
    let rcs := rawChunks env raw_text source_type
    match qaChunks env qa_json with
    | .error e => .error e
    | .ok qcs => .ok (fcs ++ rcs ++ qcs)

/-- The embed-and-build loop of `pdf_processor.py` lines 120-138: one
embedding call per chunk, in order; the usage the embedding service reports is
discarded by the source (`resp.data[0].embedding` is the only field read). -/
def embedLoop (env : IngestEnv) (user_id : Str) :
    List Chunk → Nat → List IngestEvent × Except PyErr (List VectorRecord)
  | [], _ => ([], .ok [])
  | c :: rest, i =>
    match env.embed c.text with
    | .error e => ([.embedCall c.text], .error (.upstreamError e))
    | .ok (vec, _usage) =>
      let uid := user_id ++ lit "_" ++ c.source ++ lit "_" ++ natLit i ++ lit "_" ++ env.uuidHex8 i
      match embedLoop env user_id rest (i + 1) with
      | (evs, .error e) => (.embedCall c.text :: evs, .error e)
      | (evs, .ok vs) =>
        (.embedCall c.text :: evs,
         .ok ({ id := uid, values := vec, chunk_text := c.text,
                source := c.source, user_id := user_id } :: vs))

/-- Embedding of `process_and_index_data` (`pdf_processor.py` lines 20-146).
Returns the trace of external calls and either a raised exception or the
returned dict, which the source builds with exactly the keys
`chunks_indexed`, `index_name` and `namespace`. -/
def process_and_index_data (env : IngestEnv) (user_id : Str)
    (filename file_bytes raw_text : Option Str) (qa_json : Option PyVal)
    (source_type : Option Str) (chatbot_title : Option Str) :
    List IngestEvent × Except PyErr (List (Str × PyVal)) :=
  let INDEX_NAME := indexNameOf user_id
  let ev0 : List IngestEvent :=
    if INDEX_NAME ∈ env.existingIndexes then [] else [.createIndexCall INDEX_NAME]
  match chatbot_title with
  | none => (ev0, .error (.valueError (lit "chatbot_title is required to create a namespace")))
  | some title =>
    if title.isEmpty then
      (ev0, .error (.valueError (lit "chatbot_title is required to create a namespace")))
    else
      let ns := ingestNamespaceOf title
      match collectChunks env filename file_bytes raw_text qa_json source_type with
      | .error e => (ev0, .error e)
      | .ok chunks =>
        if chunks.isEmpty then
          (ev0, .error (.valueError
            (lit "No valid input provided (PDF/DOCX/TXT, raw_text, or qa_json required).")))
        else
          match embedLoop env user_id chunks 0 with
          | (evs, .error e) => (ev0 ++ evs, .error e)
          | (evs, .ok vectors) =>
            (ev0 ++ evs ++ [.upsertCall vectors ns],
             .ok [(lit "chunks_indexed", .pyInt chunks.length),
                  (lit "index_name", .pyStr INDEX_NAME),
                  (lit "namespace", .pyStr ns)])

/-- Token usage reported by the chat completion service. -/
structure Usage where
  prompt_tokens : Nat
  completion_tokens : Nat
  total_tokens : Nat
deriving DecidableEq

/-- Calls the query path makes against external services, in order. -/
inductive QueryEvent where
  | embedCall (input : Str)
  | indexQueryCall (ns : Str) (top_k : Nat)
  | chatCall (prompt : Str)
deriving DecidableEq

/-- External collaborators of `generate_response`: the set of existing index
containers, the embedding service, the vector index query (returning the
matched chunk texts in the ranked, descending-similarity order the service
contractually provides), and the chat completion service. -/
structure QueryEnv where
  indexNames : List Str
  embed : Str → Except Str (List Int)
  queryIndex : Str → Str → List Int → Nat → List Str
  chat : Str → Except Str (Str × Usage)

/-- The fixed no-knowledge-base sentinel answer (`rag_helper.py` line 20). -/
def noKnowledgeBaseMsg : Str :=
  lit "⚠️ No knowledge base found. Please upload documents first."

/-- The placeholder context used when retrieval returns nothing
(`rag_helper.py` line 43). -/
def noContextMsg : Str := lit "No context found."

/-- Blank-line concatenation `"\n\n".join(top_chunks)` of retrieved chunk
texts (`rag_helper.py` line 43). -/
def joinBlankLine : List Str → Str
  | [] => []
  | [s] => s
  | s :: rest => s ++ lit "\n\n" ++ joinBlankLine rest

/-- The grounding prompt f-string of `rag_helper.py` lines 46-54: fixed
instruction, then the context block, then the user question, literally in that
order. -/
def promptOf (context query : Str) : Str :=
  lit "You are a helpful chatbot assistant. Use the context to answer.\n\nContext:\n"
    ++ context
    ++ lit "\n\nQuestion:\n"
    ++ query
    ++ lit "\n\nAnswer:"

/-- Embedding of `generate_response` (`rag_helper.py` lines 12-69). Returns
the trace of external calls and either a raised exception or the pair of
answer text and usage. -/
def generate_response (env : QueryEnv) (query user_id chatbot_title : Str) :
    List QueryEvent × Except PyErr (Str × Usage) :=
  let index_name := indexNameOf user_id
  if index_name ∉ env.indexNames then
    ([], .ok (noKnowledgeBaseMsg, ⟨0, 0, 0⟩))
  else if chatbot_title.isEmpty then
    ([], .error (.valueError (lit "chatbot_title is required to create a namespace")))
  else
    let ns := queryNamespaceOf chatbot_title
    match env.embed query with
    | .error e => ([.embedCall query], .error (.upstreamError e))
    | .ok query_embedding =>
      let top_chunks := env.queryIndex index_name ns query_embedding 3
      let context := if !top_chunks.isEmpty then joinBlankLine top_chunks else noContextMsg
      let prompt := promptOf context query
      match env.chat prompt with
      | .error e =>
        ([.embedCall query, .indexQueryCall ns 3, .chatCall prompt], .error (.upstreamError e))
      | .ok (full_text, usage) =>
        ([.embedCall query, .indexQueryCall ns 3, .chatCall prompt], .ok (full_text, usage))

/-- One row of the `bot_token_usage` table. -/
structure TokenRow where
  user_id : Str
  chatbot_title : Str
  file_upload_tokens : Nat
  raw_text_tokens : Nat
  qa_pairs_tokens : Nat
  web_crawl_tokens : Nat
  ask_query_tokens : Nat
deriving DecidableEq

/-- The five token columns of `bot_token_usage`. -/
inductive TokenCol where
  | fileUpload
  | rawText
  | qaPairs
  | webCrawl
  | askQuery
deriving DecidableEq

/-- Read one column of a row. -/
def getCol (r : TokenRow) : TokenCol → Nat
  | .fileUpload => r.file_upload_tokens
  | .rawText => r.raw_text_tokens
  | .qaPairs => r.qa_pairs_tokens
  | .webCrawl => r.web_crawl_tokens
  | .askQuery => r.ask_query_tokens

/-- Write one column of a row. -/
def setCol (r : TokenRow) : TokenCol → Nat → TokenRow
  | .fileUpload, v => { r with file_upload_tokens := v }
  | .rawText, v => { r with raw_text_tokens := v }
  | .qaPairs, v => { r with qa_pairs_tokens := v }
  | .webCrawl, v => { r with web_crawl_tokens := v }
  | .askQuery, v => { r with ask_query_tokens := v }

/-- The `OPERATION_COLUMNS` mapping of `token_tracker.py` lines 9-15. -/
def operation_columns : List (Str × TokenCol) :=
  [(lit "file_upload", .fileUpload),
   (lit "raw_text", .rawText),
   (lit "qa_pairs", .qaPairs),
   (lit "web_crawl", .webCrawl),
   (lit "ask_query", .askQuery)]

/-- The ledger table state. -/
abbrev LedgerDB := List TokenRow

/-- Rows matching `.eq("user_id", u).eq("chatbot_title", t)`. -/
def rowsFor (db : LedgerDB) (u t : Str) : List TokenRow :=
  db.filter (fun r => decide (r.user_id = u ∧ r.chatbot_title = t))

/-- A fresh all-zero row (`token_tracker.py` lines 37-45). -/
def zeroRow (u t : Str) : TokenRow :=
  ⟨u, t, 0, 0, 0, 0, 0⟩

/-- The storage-failure oracle: `oracle k = true` means the k-th
`.execute()` call of the modelled invocation raises, which the source catches
with `except Exception` and converts to a `success: False` value. -/
abbrev StorageOracle := Nat → Bool

/-- The oracle under which no storage call fails. -/
def noFail : StorageOracle := fun _ => false

/-- The message `str(e)` of a raised storage call, modelled as a fixed text. -/
def storageErrMsg : Str := lit "storage error"

/-- Result value of `initialize_bot_tokens`: a `success: True` message or a
`success: False` error, never a raised exception. -/
inductive InitResult where
  | succeeded (message : Str)
  | failed (error : Str)
deriving DecidableEq

/-- Result value of `update_tokens`: the `success: True` record with the
operation, previous count, added tokens and new total, or a `success: False`
error, never a raised exception. -/
inductive UpdateResult where
  | succeeded (operation : Str) (previous_tokens tokens_added new_total : Nat)
  | failed (error : Str)
deriving DecidableEq

/-- Embedding of `initialize_bot_tokens` (`token_tracker.py` lines 18-61):
lazily insert an all-zero row for the lower-cased title; both storage calls
sit inside `try`, so a raise becomes a `success: False` value. Returns the
new table, the next storage-call counter, and the result value. -/
def init_bot_tokens (oracle : StorageOracle) (k : Nat) (db : LedgerDB) (u t0 : Str) :
    LedgerDB × Nat × InitResult :=
  let t := strLower t0
  if oracle k then (db, k + 1, .failed storageErrMsg)
  else if (rowsFor db u t).isEmpty then
    if oracle (k + 1) then (db, k + 2, .failed storageErrMsg)
    else (db ++ [zeroRow u t], k + 2, .succeeded (lit "Initialized bot with all categories"))
  else (db, k + 1, .succeeded (lit "Bot already exists"))

/-- Embedding of `update_tokens` (`token_tracker.py` lines 64-119): lazily
initialize, resolve the category column, read the current count, add the
tokens and write back; every storage raise is caught and returned as a
`success: False` value. Returns the new table, the next storage-call counter,
and the result value. -/
def update_tokens (oracle : StorageOracle) (k : Nat) (db : LedgerDB)
    (u t0 op : Str) (tokens_used : Nat) : LedgerDB × Nat × UpdateResult :=
  let t := strLower t0
  match init_bot_tokens oracle k db u t with
  | (db1, k1, _initRes) =>
    match assocGet operation_columns op with
    | none => (db1, k1, .failed (lit "Invalid operation type: " ++ op))
    | some col =>
      if oracle k1 then (db1, k1 + 1, .failed storageErrMsg)
      else
        match rowsFor db1 u t with
        | [] => (db1, k1 + 1, .failed (lit "No record found for bot " ++ t))
        | r :: _ =>
          let current_tokens := getCol r col
          let new_total := current_tokens + tokens_used
          if oracle (k1 + 1) then (db1, k1 + 2, .failed storageErrMsg)
          else
            (db1.map (fun r2 =>
               if r2.user_id = u ∧ r2.chatbot_title = t then setCol r2 col new_total else r2),
             k1 + 2, .succeeded op current_tokens tokens_used new_total)

/-- One row of the `chatbot_configs` table. -/
structure BotRow where
  user_id : Str
  chatbot_title : Str
  api_key : Str
  is_active : Bool
  category : Str
  description : Option Str
deriving DecidableEq

/-- Embedding of `auth_utils.get_api_key`: the active API key for
(user, title), if any. -/
def get_api_key (bots : List BotRow) (u t : Str) : Option Str :=
  match bots.filter (fun r =>
      decide (r.user_id = u ∧ r.chatbot_title = t ∧ r.is_active = true)) with
  | [] => none
  | r :: _ => some r.api_key

/-- Embedding of `auth_utils.validate_api_key`: resolve an active API key to
its (user_id, chatbot_title). -/
def validate_api_key (bots : List BotRow) (key : Str) : Option (Str × Str) :=
  match bots.filter (fun r => decide (r.api_key = key ∧ r.is_active = true)) with
  | [] => none
  | r :: _ => some (r.user_id, r.chatbot_title)

/-- Response dict of a successful `create_chatbot_api` call. -/
structure CreateChatbotResponse where
  api_key : Str
  message : Str
  category : Str
  description : Option Str
deriving DecidableEq

/-- The 403 detail f-string of `routes.py` lines 140-143. -/
def limitDetail (n : Nat) : Str :=
  lit "You already have " ++ natLit n
    ++ lit " chatbots. Maximum limit is 5. Please delete a chatbot before creating a new one."

/-- The `try` body of `create_chatbot_api` (`routes.py` lines 110-163):
return the existing key, or enforce the 5-bot limit, or mint
`"snb_" + suffix` and insert the new row. The table is returned alongside so
that a raise demonstrably leaves it unchanged. -/
def create_chatbot_body (keySuffix : Str) (bots : List BotRow)
    (u title category : Str) (description : Option Str) :
    List BotRow × Except PyErr CreateChatbotResponse :=
  let t := strLower title
  match bots.filter (fun r => decide (r.user_id = u ∧ r.chatbot_title = t)) with
  | r :: _ =>
    (bots, .ok ⟨r.api_key, lit "API key already exists", r.category, r.description⟩)
  | [] =>
    let current_bot_count := (bots.filter (fun r => decide (r.user_id = u))).length
    if current_bot_count ≥ 5 then
      (bots, .error (.httpError 403 (limitDetail current_bot_count)))
    else
      let api_key := lit "snb_" ++ keySuffix
      (bots ++ [⟨u, t, api_key, true, category, description⟩],
       .ok ⟨api_key, lit "API key created successfully", category, description⟩)

/-- Embedding of `create_chatbot_api` (`routes.py` lines 101-166). The
`except Exception` clause has no preceding `except HTTPException: raise`, so
the 403 limit rejection is re-wrapped as a 500 whose detail embeds
`str(e) = "403: ..."`. -/
def create_chatbot_api (keySuffix : Str) (bots : List BotRow)
    (u title category : Str) (description : Option Str) :
    List BotRow × Except PyErr CreateChatbotResponse :=
  match create_chatbot_body keySuffix bots u title category description with
  | (bots2, .ok resp) => (bots2, .ok resp)
  | (bots2, .error e) =>
    (bots2, .error (.httpError 500 (lit "API key creation failed: " ++ pyErrStr e)))

/-- Embedding of the `docs_file` route (`routes.py` lines 473-518): resolve
the API key, check the extension, ingest, then persist
`result["tokens_used"]` — a key the ingestion result does not contain — into
the ledger and answer. Returns the ingestion trace, the ledger table and the
response or raised exception. -/
def docs_file (env : IngestEnv) (oracle : StorageOracle) (ledger : LedgerDB)
    (bots : List BotRow) (u : Str) (filename file_bytes chatbot_title : Str) :
    List IngestEvent × LedgerDB × Except PyErr (List (Str × PyVal)) :=
  let t := strLower chatbot_title
  match get_api_key bots u t with
  | none =>
    ([], ledger, .error (.httpError 403
      (lit "No active API key found for chatbot " ++ [39] ++ t ++ [39])))
  | some api_key =>
    if !((lit ".pdf").isSuffixOf (strLower filename)
        || (lit ".docx").isSuffixOf (strLower filename)
        || (lit ".txt").isSuffixOf (strLower filename)) then
      ([], ledger, .error (.httpError 400 (lit "Only .pdf, .docx, and .txt files are supported")))
    else
      match process_and_index_data env u (some filename) (some file_bytes) none none none (some t) with
      | (tr, .error e) => (tr, ledger, .error e)
      | (tr, .ok result) =>
        match assocGet result (lit "tokens_used") with
        | none => (tr, ledger, .error (.keyError (lit "tokens_used")))
        | some tokensVal =>
          let tokens_used := match tokensVal with | .pyInt n => n.toNat | _ => 0
          let (ledger2, _, _) := update_tokens oracle 0 ledger u t (lit "file_upload") tokens_used
          (tr, ledger2,
           .ok [(lit "message", .pyStr (lit "File " ++ [39] ++ filename ++ [39]
                   ++ lit " processed successfully")),
                (lit "chunks_indexed", (assocGet result (lit "chunks_indexed")).getD (.pyInt 0)),
                (lit "tokens_used", tokensVal),
                (lit "api_key", .pyStr api_key)])

/-- Embedding of the `ask` route (`routes.py` lines 671-698): resolve the API
key, generate the answer, record `usage["total_tokens"]` under `ask_query`
without inspecting the recording outcome, and answer. Returns the query
trace, the ledger table and the response or raised exception. -/
def ask (env : QueryEnv) (oracle : StorageOracle) (ledger : LedgerDB)
    (bots : List BotRow) (api_key query : Str) :
    List QueryEvent × LedgerDB × Except PyErr (List (Str × PyVal)) :=
  match validate_api_key bots api_key with
  | none => ([], ledger, .error (.httpError 401 (lit "Invalid or inactive API key")))
  | some (user_id, chatbot_title) =>
    let t := strLower chatbot_title
    match generate_response env query user_id t with
    | (tr, .error e) => (tr, ledger, .error e)
    | (tr, .ok (full_text, usage)) =>
      let total_tokens := usage.total_tokens
      let (ledger2, _, _) := update_tokens oracle 0 ledger user_id t (lit "ask_query") total_tokens
      (tr, ledger2,
       .ok [(lit "answer", .pyStr full_text),
            (lit "tokens_used", .pyInt total_tokens)])

end Snobbots

namespace Snobbots

/-! Lemmas about the character-level maps and stripping. -/

theorem lowerChar_idem (c : Nat) : lowerChar (lowerChar c) = lowerChar c := by
  unfold lowerChar
  split
  · rename_i h
    rw [if_neg (by omega)]
  · rfl

theorem wsB_of_bounds {c : Nat} (h : 33 ≤ c) : wsB c = false := by
  unfold wsB
  simp only [Bool.or_eq_false_iff, beq_eq_false_iff_ne, ne_eq]
  omega

theorem wsB_lowerChar (c : Nat) : wsB (lowerChar c) = wsB c := by
  unfold lowerChar
  split
  · rename_i h
    rw [wsB_of_bounds (by omega), wsB_of_bounds (by omega)]
  · rfl

theorem spaceToUnderscore_of_not_ws {c : Nat} (h : wsB c = false) :
    spaceToUnderscore c = c := by
  unfold wsB at h
  simp only [Bool.or_eq_false_iff, beq_eq_false_iff_ne, ne_eq] at h
  unfold spaceToUnderscore
  rw [if_neg h.1.1.1.1.1]

theorem spaceToUnderscore_idem (c : Nat) :
    spaceToUnderscore (spaceToUnderscore c) = spaceToUnderscore c := by
  unfold spaceToUnderscore
  split_ifs <;> omega

theorem lowerChar_spaceToUnderscore_comm (c : Nat) :
    lowerChar (spaceToUnderscore c) = spaceToUnderscore (lowerChar c) := by
  unfold spaceToUnderscore lowerChar
  split_ifs <;> omega

theorem wsB_spaceToUnderscore_of_not_ws {c : Nat} (h : wsB c = false) :
    wsB (spaceToUnderscore c) = false := by
  rw [spaceToUnderscore_of_not_ws h]; exact h

/-- Whether the first character is whitespace (`false` on the empty string). -/
def headWs : Str → Bool
  | [] => false
  | c :: _ => wsB c

/-- Whether the last character is whitespace (`false` on the empty string). -/
def lastWs : Str → Bool
  | [] => false
  | [c] => wsB c
  | _ :: t => lastWs t

theorem lastWs_cons_cons (a b : Nat) (t : Str) :
    lastWs (a :: b :: t) = lastWs (b :: t) := rfl

theorem stripLeft_headWs (s : Str) : headWs (stripLeft s) = false := by
  induction s with
  | nil => rfl
  | cons a t ih =>
    unfold stripLeft at *
    cases h : wsB a with
    | true => simpa [List.dropWhile_cons, h] using ih
    | false => simp [List.dropWhile_cons, h, headWs]

theorem stripLeft_eq_self_of_headWs {s : Str} (h : headWs s = false) :
    stripLeft s = s := by
  cases s with
  | nil => rfl
  | cons a t =>
    simp only [headWs] at h
    unfold stripLeft
    simp [List.dropWhile_cons, h]

theorem stripRight_cases (a : Nat) (t : Str) :
    stripRight (a :: t) = [] ∨ ∃ r, stripRight (a :: t) = a :: r := by
  unfold stripRight
  cases h : stripRight t with
  | nil =>
    by_cases hw : wsB a
    · left; simp [hw]
    · right; exact ⟨[], by simp [hw]⟩
  | cons b r => right; exact ⟨b :: r, rfl⟩

theorem stripRight_lastWs (s : Str) : lastWs (stripRight s) = false := by
  induction s with
  | nil => rfl
  | cons a t ih =>
    unfold stripRight
    cases h : stripRight t with
    | nil =>
      by_cases hw : wsB a
      · simp [hw, lastWs]
      · simp only [hw, if_neg]
        simpa [lastWs] using hw
    | cons b r =>
      rw [h] at ih
      rw [lastWs_cons_cons]
      exact ih

theorem stripRight_eq_self_of_lastWs {s : Str} (h : lastWs s = false) :
    stripRight s = s := by
  induction s with
  | nil => rfl
  | cons a t ih =>
    cases t with
    | nil =>
      unfold lastWs at h
      simp [stripRight, h]
    | cons b r =>
      rw [lastWs_cons_cons] at h
      have ht := ih h
      unfold stripRight
      rw [ht]

theorem headWs_stripRight_of_headWs {s : Str} (h : headWs s = false) :
    headWs (stripRight s) = false := by
  cases s with
  | nil => rfl
  | cons a t =>
    unfold headWs at h
    rcases stripRight_cases a t with hc | ⟨r, hc⟩
    · rw [hc]; rfl
    · rw [hc]; exact h

theorem lastWs_map_of_lastWs {f : Nat → Nat} (hf : ∀ c, wsB c = false → wsB (f c) = false)
    {s : Str} (h : lastWs s = false) : lastWs (s.map f) = false := by
  induction s with
  | nil => rfl
  | cons a t ih =>
    cases t with
    | nil =>
      unfold lastWs at h ⊢
      simp only [List.map_cons, List.map_nil]
      exact hf a h
    | cons b r =>
      rw [lastWs_cons_cons] at h
      simpa [lastWs_cons_cons] using ih h

theorem headWs_map_of_headWs {f : Nat → Nat} (hf : ∀ c, wsB c = false → wsB (f c) = false)
    {s : Str} (h : headWs s = false) : headWs (s.map f) = false := by
  cases s with
  | nil => rfl
  | cons a t =>
    unfold headWs at h ⊢
    simp only [List.map_cons]
    exact hf a h

theorem stripLeft_map_comm {f : Nat → Nat} (hf : ∀ c, wsB (f c) = wsB c) (s : Str) :
    stripLeft (s.map f) = (stripLeft s).map f := by
  induction s with
  | nil => rfl
  | cons a t ih =>
    unfold stripLeft at *
    simp only [List.map_cons, List.dropWhile_cons, hf a]
    by_cases h : wsB a
    · simp [h, ih]
    · simp [h]

theorem stripRight_map_comm {f : Nat → Nat} (hf : ∀ c, wsB (f c) = wsB c) (s : Str) :
    stripRight (s.map f) = (stripRight s).map f := by
  induction s with
  | nil => rfl
  | cons a t ih =>
    simp only [List.map_cons]
    unfold stripRight
    rw [ih]
    cases h : stripRight t with
    | nil =>
      simp only [List.map_nil, hf a]
      by_cases hw : wsB a <;> simp [hw]
    | cons b r => simp

theorem pyStrip_map_comm {f : Nat → Nat} (hf : ∀ c, wsB (f c) = wsB c) (s : Str) :
    pyStrip (s.map f) = (pyStrip s).map f := by
  unfold pyStrip
  rw [stripLeft_map_comm hf, stripRight_map_comm hf]

theorem pyStrip_headWs (s : Str) : headWs (pyStrip s) = false :=
  headWs_stripRight_of_headWs (stripLeft_headWs s)

theorem pyStrip_lastWs (s : Str) : lastWs (pyStrip s) = false :=
  stripRight_lastWs (stripLeft s)

theorem pyStrip_eq_self {s : Str} (h1 : headWs s = false) (h2 : lastWs s = false) :
    pyStrip s = s := by
  unfold pyStrip
  rw [stripLeft_eq_self_of_headWs h1, stripRight_eq_self_of_lastWs h2]

theorem strLower_strip_comm (s : Str) :
    strLower (pyStrip s) = pyStrip (strLower s) := by
  unfold strLower
  rw [pyStrip_map_comm wsB_lowerChar]

theorem map_comp_eq (f g h : Nat → Nat) (hp : ∀ c, f (g c) = h c) :
    ∀ s : Str, (s.map g).map f = s.map h := by
  intro s
  induction s with
  | nil => rfl
  | cons a t ih => simp only [List.map_cons, ih, hp]

theorem strLower_idem (s : Str) : strLower (strLower s) = strLower s :=
  map_comp_eq lowerChar lowerChar lowerChar lowerChar_idem s

theorem replaceSpace_idem (s : Str) : replaceSpace (replaceSpace s) = replaceSpace s :=
  map_comp_eq spaceToUnderscore spaceToUnderscore spaceToUnderscore spaceToUnderscore_idem s

theorem strLower_replaceSpace_comm (s : Str) :
    strLower (replaceSpace s) = replaceSpace (strLower s) := by
  have h1 := map_comp_eq lowerChar spaceToUnderscore
    (fun c => spaceToUnderscore (lowerChar c)) lowerChar_spaceToUnderscore_comm s
  have h2 := map_comp_eq spaceToUnderscore lowerChar
    (fun c => spaceToUnderscore (lowerChar c)) (fun _ => rfl) s
  unfold strLower replaceSpace at *
  rw [h1, h2]

theorem ingestNamespaceOf_headWs (t : Str) : headWs (ingestNamespaceOf t) = false :=
  headWs_map_of_headWs (fun _ hc => wsB_spaceToUnderscore_of_not_ws hc)
    (headWs_map_of_headWs (fun c hc => by rw [wsB_lowerChar]; exact hc) (pyStrip_headWs t))

theorem ingestNamespaceOf_lastWs (t : Str) : lastWs (ingestNamespaceOf t) = false :=
  lastWs_map_of_lastWs (fun _ hc => wsB_spaceToUnderscore_of_not_ws hc)
    (lastWs_map_of_lastWs (fun c hc => by rw [wsB_lowerChar]; exact hc) (pyStrip_lastWs t))

theorem ingestNamespaceOf_idem (t : Str) :
    ingestNamespaceOf (ingestNamespaceOf t) = ingestNamespaceOf t := by
  have h1 : pyStrip (ingestNamespaceOf t) = ingestNamespaceOf t :=
    pyStrip_eq_self (ingestNamespaceOf_headWs t) (ingestNamespaceOf_lastWs t)
  show replaceSpace (strLower (pyStrip (ingestNamespaceOf t))) = ingestNamespaceOf t
  rw [h1]
  show replaceSpace (strLower (replaceSpace (strLower (pyStrip t))))
      = replaceSpace (strLower (pyStrip t))
  rw [strLower_replaceSpace_comm, strLower_idem, replaceSpace_idem]

theorem ingestNamespaceOf_eq_of_lower_eq {t1 t2 : Str} (h : strLower t1 = strLower t2) :
    ingestNamespaceOf t1 = ingestNamespaceOf t2 := by
  show replaceSpace (strLower (pyStrip t1)) = replaceSpace (strLower (pyStrip t2))
  rw [strLower_strip_comm, strLower_strip_comm, h]

theorem flushNamespaceOf_eq_ingest (t : Str) : flushNamespaceOf t = ingestNamespaceOf t := by
  show replaceSpace (pyStrip (strLower t)) = replaceSpace (strLower (pyStrip t))
  rw [strLower_strip_comm]

/-- Claim C3 (amended): namespace derivation strips leading/trailing
whitespace, lower-cases and replaces space characters with underscores; it is
deterministic, idempotent and case-insensitive, maps both "My Bot" and
"MY BOT" to "my_bot", and the ingestion, query and flush components all
compute the same namespace for the same title. -/
theorem namespace_derivation_correct :
    (∀ t, ingestNamespaceOf (ingestNamespaceOf t) = ingestNamespaceOf t) ∧
    (∀ t1 t2, strLower t1 = strLower t2 → ingestNamespaceOf t1 = ingestNamespaceOf t2) ∧
    ingestNamespaceOf (lit "My Bot") = lit "my_bot" ∧
    ingestNamespaceOf (lit "MY BOT") = lit "my_bot" ∧
    (∀ t, queryNamespaceOf t = ingestNamespaceOf t) ∧
    (∀ t, flushNamespaceOf t = ingestNamespaceOf t) :=
  ⟨ingestNamespaceOf_idem,
   fun _ _ h => ingestNamespaceOf_eq_of_lower_eq h,
   by decide,
   by decide,
   fun _ => rfl,
   flushNamespaceOf_eq_ingest⟩

/-- Witness for C3: the case-insensitivity and idempotence conjuncts applied
at concrete titles. -/
theorem namespace_derivation_correct_witness :
    ingestNamespaceOf (lit "my BOT") = ingestNamespaceOf (lit "My Bot") ∧
    ingestNamespaceOf (ingestNamespaceOf (lit "  A  B ")) = ingestNamespaceOf (lit "  A  B ") :=
  ⟨namespace_derivation_correct.2.1 (lit "my BOT") (lit "My Bot") (by decide),
   namespace_derivation_correct.1 (lit "  A  B ")⟩

/-- Counterexample for C3 as stated: the claimed derivation (lower-case, then
every whitespace character to underscore) disagrees with the source
derivation on the title " My<TAB>Bot " — the source strips the ends and
leaves the interior tab untouched. -/
theorem namespace_derivation_spec_mismatch :
    specNamespaceOf (lit " My\tBot ") ≠ ingestNamespaceOf (lit " My\tBot ") ∧
    specNamespaceOf (lit " My\tBot ") = lit "_my_bot_" ∧
    ingestNamespaceOf (lit " My\tBot ") = lit "my\tbot" := by
  refine ⟨by decide, by decide, by decide⟩

theorem setCol_user_id (r : TokenRow) (c : TokenCol) (v : Nat) :
    (setCol r c v).user_id = r.user_id := by
  cases c <;> rfl

theorem setCol_chatbot_title (r : TokenRow) (c : TokenCol) (v : Nat) :
    (setCol r c v).chatbot_title = r.chatbot_title := by
  cases c <;> rfl

theorem getCol_setCol_same (r : TokenRow) (c : TokenCol) (v : Nat) :
    getCol (setCol r c v) c = v := by
  cases c <;> rfl

theorem getCol_setCol_ne (r : TokenRow) {c c2 : TokenCol} (v : Nat) (h : c2 ≠ c) :
    getCol (setCol r c v) c2 = getCol r c2 := by
  cases c <;> cases c2 <;> first | rfl | exact absurd rfl h

theorem getCol_zeroRow (u t : Str) (c : TokenCol) : getCol (zeroRow u t) c = 0 := by
  cases c <;> rfl

theorem filter_map_pres {α : Type} (f : α → α) (p : α → Bool)
    (hp : ∀ r, p (f r) = p r) (l : List α) :
    (l.map f).filter p = (l.filter p).map f := by
  induction l with
  | nil => rfl
  | cons a t ih =>
    cases h : p a with
    | true => simp [List.filter_cons, hp a, h, ih]
    | false => simp [List.filter_cons, hp a, h, ih]

theorem filter_map_invariant {α : Type} (f : α → α) (p : α → Bool)
    (hp : ∀ r, p (f r) = p r) (hfix : ∀ r, p r = true → f r = r) (l : List α) :
    (l.map f).filter p = l.filter p := by
  rw [filter_map_pres f p hp l]
  have h2 : (l.filter p).map f = (l.filter p).map id :=
    List.map_congr_left (fun a ha => hfix a (List.mem_filter.mp ha).2)
  simpa using h2

theorem map_updFun_of_fresh (db : LedgerDB) (u t : Str) (col : TokenCol) (v : Nat)
    (hfresh : rowsFor db u t = []) :
    db.map (fun r2 => if r2.user_id = u ∧ r2.chatbot_title = t then setCol r2 col v else r2)
      = db := by
  have hne := List.filter_eq_nil_iff.mp hfresh
  have h2 : db.map (fun r2 =>
        if r2.user_id = u ∧ r2.chatbot_title = t then setCol r2 col v else r2)
      = db.map id := by
    refine List.map_congr_left (fun r hr => ?_)
    have hnb := hne r hr
    simp only [decide_eq_true_eq] at hnb
    simp [hnb]
  simpa using h2

theorem rowsFor_append (db1 db2 : LedgerDB) (u t : Str) :
    rowsFor (db1 ++ db2) u t = rowsFor db1 u t ++ rowsFor db2 u t :=
  List.filter_append db1 db2

theorem rowsFor_single_match (u t : Str) (r : TokenRow)
    (h1 : r.user_id = u) (h2 : r.chatbot_title = t) :
    rowsFor [r] u t = [r] := by
  simp [rowsFor, List.filter_cons, h1, h2]

theorem rowsFor_single_miss (u t : Str) (r : TokenRow)
    (h : ¬ (r.user_id = u ∧ r.chatbot_title = t)) :
    rowsFor [r] u t = [] := by
  simp [rowsFor, List.filter_cons, h]

theorem update_tokens_noFail_fresh (db : LedgerDB) (u t0 op : Str) (toks : Nat)
    (col : TokenCol) (hop : assocGet operation_columns op = some col)
    (hfresh : rowsFor db u (strLower t0) = []) :
    update_tokens noFail 0 db u t0 op toks =
      (db ++ [setCol (zeroRow u (strLower t0)) col toks], 4, .succeeded op 0 toks toks) := by
  have hrows1 : rowsFor (db ++ [zeroRow u (strLower t0)]) u (strLower t0)
      = [zeroRow u (strLower t0)] := by
    rw [rowsFor_append, hfresh, rowsFor_single_match u (strLower t0) _ rfl rfl]
    rfl
  unfold update_tokens init_bot_tokens noFail
  simp only [strLower_idem, hfresh, List.isEmpty_nil, if_true, Bool.false_eq_true, if_false,
    hop, hrows1, getCol_zeroRow, Nat.zero_add]
  rw [List.map_append]
  rw [map_updFun_of_fresh db u (strLower t0) col toks hfresh]
  simp [zeroRow]

theorem update_tokens_noFail_existing (db : LedgerDB) (u t0 op : Str) (toks : Nat)
    (col : TokenCol) (r : TokenRow) (rs : List TokenRow)
    (hop : assocGet operation_columns op = some col)
    (hrows : rowsFor db u (strLower t0) = r :: rs) :
    update_tokens noFail 0 db u t0 op toks =
      (db.map (fun r2 =>
         if r2.user_id = u ∧ r2.chatbot_title = strLower t0
         then setCol r2 col (getCol r col + toks) else r2),
       3, .succeeded op (getCol r col) toks (getCol r col + toks)) := by
  unfold update_tokens init_bot_tokens noFail
  simp only [strLower_idem, hrows, List.isEmpty_cons, Bool.false_eq_true, if_false, hop]

theorem rowsFor_map_updFun_other_key (db : LedgerDB) (u t : Str) (col : TokenCol) (v : Nat)
    (u2 t2 : Str) (hne2 : ¬ (u2 = u ∧ t2 = t)) :
    rowsFor (db.map (fun r2 =>
        if r2.user_id = u ∧ r2.chatbot_title = t then setCol r2 col v else r2)) u2 t2
      = rowsFor db u2 t2 := by
  apply filter_map_invariant
  · intro r2
    by_cases hc : r2.user_id = u ∧ r2.chatbot_title = t
    · simp [hc, setCol_user_id, setCol_chatbot_title]
    · simp [hc]
  · intro r2 h
    simp only [decide_eq_true_eq] at h
    have hc : ¬ (r2.user_id = u ∧ r2.chatbot_title = t) := by
      intro hc
      exact hne2 ⟨h.1 ▸ hc.1, h.2 ▸ hc.2⟩
    simp [hc]

theorem rowsFor_map_updFun_same_key (db : LedgerDB) (u t : Str) (col : TokenCol) (v : Nat)
    (c2 : TokenCol) (hc2 : c2 ≠ col) :
    (rowsFor (db.map (fun r2 =>
        if r2.user_id = u ∧ r2.chatbot_title = t then setCol r2 col v else r2)) u t).map
        (fun r => getCol r c2)
      = (rowsFor db u t).map (fun r => getCol r c2) := by
  rw [show rowsFor (db.map (fun r2 =>
        if r2.user_id = u ∧ r2.chatbot_title = t then setCol r2 col v else r2)) u t
      = (rowsFor db u t).map (fun r2 =>
        if r2.user_id = u ∧ r2.chatbot_title = t then setCol r2 col v else r2) from
    filter_map_pres _ _ (fun r2 => by
      by_cases hc : r2.user_id = u ∧ r2.chatbot_title = t
      · simp [hc, setCol_user_id, setCol_chatbot_title]
      · simp [hc]) db]
  rw [List.map_map]
  refine List.map_congr_left (fun r2 hr2 => ?_)
  have hm := (List.mem_filter.mp hr2).2
  simp only [decide_eq_true_eq] at hm
  simp only [Function.comp, hm, and_self, if_true]
  exact getCol_setCol_ne r2 v hc2

/-- Claim C7: the ledger record operation lazily creates an all-zero row on
first touch, accumulates into the named category (37 then 5 gives 42), and
leaves every other category, and every other (tenant, bot) row, unchanged. -/
theorem token_ledger_record_correct :
    (∀ (db : LedgerDB) (u t : Str), rowsFor db u (strLower t) = [] →
      (update_tokens noFail 0 db u t (lit "ask_query") 37).2.2
          = .succeeded (lit "ask_query") 0 37 37 ∧
      rowsFor (update_tokens noFail 0 db u t (lit "ask_query") 37).1 u (strLower t)
          = [⟨u, strLower t, 0, 0, 0, 0, 37⟩] ∧
      (update_tokens noFail 0 (update_tokens noFail 0 db u t (lit "ask_query") 37).1
          u t (lit "ask_query") 5).2.2 = .succeeded (lit "ask_query") 37 5 42 ∧
      rowsFor (update_tokens noFail 0 (update_tokens noFail 0 db u t (lit "ask_query") 37).1
          u t (lit "ask_query") 5).1 u (strLower t)
          = [⟨u, strLower t, 0, 0, 0, 0, 42⟩]) ∧
    (∀ (db : LedgerDB) (u t op : Str) (toks : Nat) (col : TokenCol),
      assocGet operation_columns op = some col →
      (∀ u2 t2, ¬ (u2 = u ∧ t2 = strLower t) →
        rowsFor (update_tokens noFail 0 db u t op toks).1 u2 t2 = rowsFor db u2 t2) ∧
      (∀ c2, c2 ≠ col →
        (rowsFor (update_tokens noFail 0 db u t op toks).1 u (strLower t)).map
            (fun r => getCol r c2)
          = (rowsFor db u (strLower t)).map (fun r => getCol r c2)
            ++ if rowsFor db u (strLower t) = [] then [0] else [])) := by
  have hop : assocGet operation_columns (lit "ask_query") = some TokenCol.askQuery := by decide
  constructor
  · intro db u t hfresh
    have h1 := update_tokens_noFail_fresh db u t (lit "ask_query") 37 .askQuery hop hfresh
    have hrow37 : setCol (zeroRow u (strLower t)) TokenCol.askQuery 37
        = (⟨u, strLower t, 0, 0, 0, 0, 37⟩ : TokenRow) := rfl
    have hrows1 : rowsFor (update_tokens noFail 0 db u t (lit "ask_query") 37).1 u (strLower t)
        = [(⟨u, strLower t, 0, 0, 0, 0, 37⟩ : TokenRow)] := by
      rw [h1]
      rw [show (db ++ [setCol (zeroRow u (strLower t)) TokenCol.askQuery 37], 4,
            UpdateResult.succeeded (lit "ask_query") 0 37 37).1
          = db ++ [setCol (zeroRow u (strLower t)) TokenCol.askQuery 37] from rfl]
      rw [rowsFor_append, hfresh, hrow37, rowsFor_single_match u (strLower t) _ rfl rfl]
      rfl
    have h2 := update_tokens_noFail_existing
      (update_tokens noFail 0 db u t (lit "ask_query") 37).1 u t (lit "ask_query") 5
      .askQuery (⟨u, strLower t, 0, 0, 0, 0, 37⟩ : TokenRow) [] hop hrows1
    refine ⟨by rw [h1], hrows1, by rw [h2]; rfl, ?_⟩
    rw [h2]
    rw [show ((update_tokens noFail 0 db u t (lit "ask_query") 37).1.map (fun r2 =>
          if r2.user_id = u ∧ r2.chatbot_title = strLower t
          then setCol r2 TokenCol.askQuery
            (getCol (⟨u, strLower t, 0, 0, 0, 0, 37⟩ : TokenRow) TokenCol.askQuery + 5)
          else r2), 3,
          UpdateResult.succeeded (lit "ask_query")
            (getCol (⟨u, strLower t, 0, 0, 0, 0, 37⟩ : TokenRow) TokenCol.askQuery) 5
            (getCol (⟨u, strLower t, 0, 0, 0, 0, 37⟩ : TokenRow) TokenCol.askQuery + 5)).1
        = (update_tokens noFail 0 db u t (lit "ask_query") 37).1.map (fun r2 =>
          if r2.user_id = u ∧ r2.chatbot_title = strLower t
          then setCol r2 TokenCol.askQuery 42 else r2) from rfl]
    rw [h1]
    rw [show (db ++ [setCol (zeroRow u (strLower t)) TokenCol.askQuery 37], 4,
          UpdateResult.succeeded (lit "ask_query") 0 37 37).1
        = db ++ [setCol (zeroRow u (strLower t)) TokenCol.askQuery 37] from rfl]
    rw [List.map_append, map_updFun_of_fresh db u (strLower t) TokenCol.askQuery 42 hfresh]
    rw [show ([setCol (zeroRow u (strLower t)) TokenCol.askQuery 37].map (fun r2 =>
          if r2.user_id = u ∧ r2.chatbot_title = strLower t
          then setCol r2 TokenCol.askQuery 42 else r2))
        = [(⟨u, strLower t, 0, 0, 0, 0, 42⟩ : TokenRow)] by simp [zeroRow, setCol]]
    rw [rowsFor_append, hfresh, rowsFor_single_match u (strLower t) _ rfl rfl]
    rfl
  · intro db u t op toks col hopc
    by_cases hfresh : rowsFor db u (strLower t) = []
    · have h1 := update_tokens_noFail_fresh db u t op toks col hopc hfresh
      constructor
      · intro u2 t2 hne2
        rw [h1]
        rw [show (db ++ [setCol (zeroRow u (strLower t)) col toks], 4,
              UpdateResult.succeeded op 0 toks toks).1
            = db ++ [setCol (zeroRow u (strLower t)) col toks] from rfl]
        rw [rowsFor_append, rowsFor_single_miss u2 t2 _ (by
          simp only [setCol_user_id, setCol_chatbot_title, zeroRow]
          intro hc
          exact hne2 ⟨hc.1.symm, hc.2.symm⟩)]
        simp
      · intro c2 hc2
        rw [h1]
        rw [show (db ++ [setCol (zeroRow u (strLower t)) col toks], 4,
              UpdateResult.succeeded op 0 toks toks).1
            = db ++ [setCol (zeroRow u (strLower t)) col toks] from rfl]
        rw [rowsFor_append, hfresh, rowsFor_single_match u (strLower t) _
          (by simp [setCol_user_id, zeroRow]) (by simp [setCol_chatbot_title, zeroRow])]
        simp [hfresh, getCol_setCol_ne _ _ hc2, getCol_zeroRow]
    · obtain ⟨r, rs, hrows⟩ := List.exists_cons_of_ne_nil hfresh
      have h1 := update_tokens_noFail_existing db u t op toks col r rs hopc hrows
      constructor
      · intro u2 t2 hne2
        rw [h1]
        exact rowsFor_map_updFun_other_key db u (strLower t) col (getCol r col + toks) u2 t2 hne2
      · intro c2 hc2
        rw [h1]
        rw [rowsFor_map_updFun_same_key db u (strLower t) col (getCol r col + toks) c2 hc2]
        simp [hfresh]

/-- Witness for C7: the record behaviour applied on the empty table for a
concrete tenant and bot, plus the cross-bot frame conjunct at concrete keys. -/
theorem token_ledger_record_correct_witness :
    (update_tokens noFail 0 [] (lit "u1") (lit "BotA") (lit "ask_query") 37).2.2
        = .succeeded (lit "ask_query") 0 37 37 ∧
    rowsFor (update_tokens noFail 0 [] (lit "u1") (lit "BotA") (lit "ask_query") 37).1
        (lit "u2") (lit "other") = rowsFor [] (lit "u2") (lit "other") :=
  ⟨(token_ledger_record_correct.1 [] (lit "u1") (lit "BotA") rfl).1,
   ((token_ledger_record_correct.2 [] (lit "u1") (lit "BotA") (lit "ask_query") 37
      TokenCol.askQuery (by decide)).1 (lit "u2") (lit "other") (by decide))⟩

/-- Claim C2 (amended): the fixed no-knowledge-base sentinel with zero usage
and no external calls is returned exactly when the tenant container does not
exist; when the container exists but the namespace holds no vectors, the code
still makes one embedding call and one chat call, with the
"No context found." placeholder as context, and returns the real chat answer
and usage. -/
theorem no_knowledge_base_sentinel :
    (∀ (env : QueryEnv) (q u t : Str), indexNameOf u ∉ env.indexNames →
      generate_response env q u t = ([], .ok (noKnowledgeBaseMsg, ⟨0, 0, 0⟩))) ∧
    (∀ (env : QueryEnv) (q u t : Str) (vec : List Int),
      indexNameOf u ∈ env.indexNames →
      t.isEmpty = false →
      env.embed q = .ok vec →
      env.queryIndex (indexNameOf u) (queryNamespaceOf t) vec 3 = [] →
      (generate_response env q u t).1
          = [QueryEvent.embedCall q, .indexQueryCall (queryNamespaceOf t) 3,
             .chatCall (promptOf noContextMsg q)] ∧
      (∀ ans usage, env.chat (promptOf noContextMsg q) = .ok (ans, usage) →
        (generate_response env q u t).2 = .ok (ans, usage))) := by
  constructor
  · intro env q u t hmem
    unfold generate_response
    rw [if_pos hmem]
  · intro env q u t vec hmem ht hembed hquery
    unfold generate_response
    rw [if_neg (not_not_intro hmem), if_neg (by simp [ht]), hembed]
    dsimp only
    rw [hquery]
    simp only [List.isEmpty_nil, Bool.not_true, Bool.false_eq_true, if_false]
    constructor
    · cases hchat : env.chat (promptOf noContextMsg q) with
      | error e => rfl
      | ok res => rfl
    · intro ans usage hchat
      rw [hchat]

/-- Witness for C2: both conjuncts applied at concrete environments — a
missing container returns the sentinel, and an existing container with an
empty namespace returns the chat answer. -/
theorem no_knowledge_base_sentinel_witness :
    generate_response
        ⟨[], fun _ => .ok [1], fun _ _ _ _ => [], fun _ => .ok (lit "hi", ⟨7, 5, 12⟩)⟩
        (lit "q") (lit "u1") (lit "bot")
      = ([], .ok (noKnowledgeBaseMsg, ⟨0, 0, 0⟩)) ∧
    (generate_response
        ⟨[indexNameOf (lit "u1")], fun _ => .ok [1], fun _ _ _ _ => [],
         fun _ => .ok (lit "hi", ⟨7, 5, 12⟩)⟩
        (lit "q") (lit "u1") (lit "bot")).2 = .ok (lit "hi", ⟨7, 5, 12⟩) :=
  ⟨no_knowledge_base_sentinel.1 _ (lit "q") (lit "u1") (lit "bot") (by decide),
   (no_knowledge_base_sentinel.2 _ (lit "q") (lit "u1") (lit "bot") [1]
      (by decide) (by decide) rfl rfl).2 (lit "hi") ⟨7, 5, 12⟩ rfl⟩

/-- Counterexample for C2 as stated: with an existing container and an empty
namespace the code does not return the sentinel with zero usage — it makes an
embedding call and a chat call and returns the chat answer with its real
usage. -/
theorem empty_namespace_still_calls_chat :
    generate_response
        ⟨[indexNameOf (lit "u1")], fun _ => .ok [1], fun _ _ _ _ => [],
         fun _ => .ok (lit "hi", ⟨7, 5, 12⟩)⟩
        (lit "q") (lit "u1") (lit "bot")
      = ([QueryEvent.embedCall (lit "q"),
          .indexQueryCall (queryNamespaceOf (lit "bot")) 3,
          .chatCall (promptOf noContextMsg (lit "q"))],
         .ok (lit "hi", ⟨7, 5, 12⟩)) ∧
    lit "hi" ≠ noKnowledgeBaseMsg ∧ (12 : Nat) ≠ 0 := by
  refine ⟨rfl, by decide, by decide⟩

theorem joinBlankLine_eq_intercalate :
    ∀ cs : List Str, joinBlankLine cs = List.intercalate (lit "\n\n") cs := by
  intro cs
  induction cs with
  | nil => rfl
  | cons c rest ih =>
    cases rest with
    | nil => simp [joinBlankLine, List.intercalate, List.intersperse]
    | cons d ds =>
      have hstep : joinBlankLine (c :: d :: ds)
          = c ++ lit "\n\n" ++ joinBlankLine (d :: ds) := rfl
      rw [hstep, ih]
      simp [List.intercalate, List.intersperse, List.append_assoc]

/-- Claim C9: the context is the retrieved chunk texts joined with a blank
line (two newlines) in the ranked order the index returns
(descending-similarity per the index contract), "No context found." when
nothing is retrieved, and the single prompt sent to the chat model is the
fixed instruction, then the context block, then the user question, in that
literal order. -/
theorem grounding_prompt_composition :
    (∀ (env : QueryEnv) (q u t : Str) (vec : List Int) (chunks : List Str),
      indexNameOf u ∈ env.indexNames →
      t.isEmpty = false →
      env.embed q = .ok vec →
      env.queryIndex (indexNameOf u) (queryNamespaceOf t) vec 3 = chunks →
      (generate_response env q u t).1
        = [QueryEvent.embedCall q, .indexQueryCall (queryNamespaceOf t) 3,
           .chatCall (promptOf
             (if !chunks.isEmpty then joinBlankLine chunks else noContextMsg) q)]) ∧
    (∀ context q : Str, promptOf context q
        = lit "You are a helpful chatbot assistant. Use the context to answer.\n\nContext:\n"
          ++ context ++ lit "\n\nQuestion:\n" ++ q ++ lit "\n\nAnswer:") ∧
    (∀ cs : List Str, joinBlankLine cs = List.intercalate (lit "\n\n") cs) ∧
    noContextMsg = lit "No context found." := by
  refine ⟨?_, fun _ _ => rfl, joinBlankLine_eq_intercalate, rfl⟩
  intro env q u t vec chunks hmem ht hembed hquery
  unfold generate_response
  rw [if_neg (not_not_intro hmem), if_neg (by simp [ht]), hembed]
  dsimp only
  rw [hquery]
  cases hchat : env.chat (promptOf
      (if !chunks.isEmpty then joinBlankLine chunks else noContextMsg) q) with
  | error e => rfl
  | ok res => rfl

/-- Witness for C9: the prompt composition at a concrete retrieval of two
chunks. -/
theorem grounding_prompt_composition_witness :
    (generate_response
        ⟨[indexNameOf (lit "u1")], fun _ => .ok [1],
         fun _ _ _ _ => [lit "alpha", lit "beta"], fun _ => .ok (lit "hi", ⟨7, 5, 12⟩)⟩
        (lit "q") (lit "u1") (lit "bot")).1
      = [QueryEvent.embedCall (lit "q"),
         .indexQueryCall (queryNamespaceOf (lit "bot")) 3,
         .chatCall (promptOf (joinBlankLine [lit "alpha", lit "beta"]) (lit "q"))] :=
  by simpa using grounding_prompt_composition.1 _ (lit "q") (lit "u1") (lit "bot") [1]
      [lit "alpha", lit "beta"] (by decide) (by decide) rfl rfl

theorem update_tokens_failed_frame (oracle : StorageOracle) (k : Nat) (db : LedgerDB)
    (u t0 op : Str) (tokens_used : Nat) (e : Str)
    (h : (update_tokens oracle k db u t0 op tokens_used).2.2 = .failed e) :
    (update_tokens oracle k db u t0 op tokens_used).1
      = (init_bot_tokens oracle k db u (strLower t0)).1 := by
  unfold update_tokens
  unfold update_tokens at h
  dsimp only at h ⊢
  rcases hinit : init_bot_tokens oracle k db u (strLower t0) with ⟨db1, k1, ires⟩
  rw [hinit] at h
  dsimp only at h ⊢
  cases hcol : assocGet operation_columns op with
  | none => rfl
  | some col =>
    rw [hcol] at h
    dsimp only at h ⊢
    by_cases h1 : oracle k1 = true
    · simp [h1]
    · rw [if_neg h1] at h ⊢
      cases hrows : rowsFor db1 u (strLower t0) with
      | nil => rfl
      | cons r rs =>
        rw [hrows] at h
        dsimp only at h
        by_cases h2 : oracle (k1 + 1) = true
        · simp [h2]
        · rw [if_neg h2] at h
          exact absurd h (by simp)

theorem process_ok_has_no_tokens_used (env : IngestEnv) (u : Str)
    (fn fb raw : Option Str) (qa : Option PyVal) (st : Option Str) (title : Option Str)
    (tr : List IngestEvent) (result : List (Str × PyVal))
    (h : process_and_index_data env u fn fb raw qa st title = (tr, .ok result)) :
    assocGet result (lit "tokens_used") = none := by
  unfold process_and_index_data at h
  dsimp only at h
  cases title with
  | none =>
    dsimp only at h
    injection h with h1 h2
    exact Except.noConfusion h2
  | some t =>
    dsimp only at h
    by_cases ht : t.isEmpty
    · rw [if_pos ht] at h
      injection h with h1 h2
      exact Except.noConfusion h2
    · rw [if_neg ht] at h
      cases hcollect : collectChunks env fn fb raw qa st with
      | error e =>
        rw [hcollect] at h
        injection h with h1 h2
        exact Except.noConfusion h2
      | ok chunks =>
        rw [hcollect] at h
        dsimp only at h
        by_cases hchunks : chunks.isEmpty
        · rw [if_pos hchunks] at h
          injection h with h1 h2
          exact Except.noConfusion h2
        · rw [if_neg hchunks] at h
          cases hloop : embedLoop env u chunks 0 with
          | mk evs res =>
            rw [hloop] at h
            cases res with
            | error e =>
              injection h with h1 h2
              exact Except.noConfusion h2
            | ok vectors =>
              dsimp only at h
              injection h with h1 h2
              injection h2 with h3
              rw [← h3]
              have hne1 : ¬ (lit "chunks_indexed" = lit "tokens_used") := by decide
              have hne2 : ¬ (lit "index_name" = lit "tokens_used") := by decide
              have hne3 : ¬ (lit "namespace" = lit "tokens_used") := by decide
              simp [assocGet, hne1, hne2, hne3]

/-- Claim C10 (amended): the ledger operations return their failures as
values, so for every storage-failure pattern the ask route still answers
normally with the generated text and usage, and when recording fails the
write-back did not happen — the table is exactly what lazy initialization
left, so the spent tokens are silently not persisted. Ingestion requests,
however, never reach the recording step at all: every successful ingestion
makes the route raise KeyError at result["tokens_used"] first, leaving the
ledger untouched, so no ingestion request returns its normal response. -/
theorem tracker_failure_never_blocks_ask :
    (∀ (env : QueryEnv) (oracle : StorageOracle) (ledger : LedgerDB) (bots : List BotRow)
      (key q u title : Str) (tr : List QueryEvent) (ans : Str) (usage : Usage),
      validate_api_key bots key = some (u, title) →
      generate_response env q u (strLower title) = (tr, .ok (ans, usage)) →
      (ask env oracle ledger bots key q).2.2
        = .ok [(lit "answer", .pyStr ans), (lit "tokens_used", .pyInt usage.total_tokens)] ∧
      (∀ e, (update_tokens oracle 0 ledger u (strLower title)
              (lit "ask_query") usage.total_tokens).2.2 = .failed e →
        (update_tokens oracle 0 ledger u (strLower title)
            (lit "ask_query") usage.total_tokens).1
          = (init_bot_tokens oracle 0 ledger u (strLower (strLower title))).1)) ∧
    (∀ (envI : IngestEnv) (oracle : StorageOracle) (ledger : LedgerDB) (bots : List BotRow)
      (u filename fileBytes title apiKey : Str) (tr : List IngestEvent)
      (result : List (Str × PyVal)),
      get_api_key bots u (strLower title) = some apiKey →
      ((lit ".pdf").isSuffixOf (strLower filename)
        || (lit ".docx").isSuffixOf (strLower filename)
        || (lit ".txt").isSuffixOf (strLower filename)) = true →
      process_and_index_data envI u (some filename) (some fileBytes) none none none
          (some (strLower title)) = (tr, .ok result) →
      (docs_file envI oracle ledger bots u filename fileBytes title).2.2
          = .error (.keyError (lit "tokens_used")) ∧
      (docs_file envI oracle ledger bots u filename fileBytes title).2.1 = ledger) := by
  constructor
  · intro env oracle ledger bots key q u title tr ans usage hval hgen
    constructor
    · unfold ask
      rw [hval]
      dsimp only
      rw [hgen]
    · intro e he
      exact update_tokens_failed_frame oracle 0 ledger u (strLower title)
        (lit "ask_query") usage.total_tokens e he
  · intro envI oracle ledger bots u filename fileBytes title apiKey tr result hkey hsuf hproc
    have hnone := process_ok_has_no_tokens_used envI u (some filename) (some fileBytes)
      none none none (some (strLower title)) tr result hproc
    unfold docs_file
    dsimp only
    rw [hkey]
    dsimp only
    rw [if_neg (by simp [hsuf])]
    rw [hproc]
    dsimp only
    rw [hnone]
    exact ⟨rfl, rfl⟩

/-- Witness for C10: with an oracle under which every storage call raises,
the ask route still returns the generated answer and the failed recording
left the empty ledger empty; a concrete successful .txt ingestion raises
KeyError at the recording step instead. -/
theorem tracker_failure_never_blocks_ask_witness :
    (ask ⟨[indexNameOf (lit "u1")], fun _ => .ok [1], fun _ _ _ _ => [],
         fun _ => .ok (lit "hi", ⟨7, 5, 12⟩)⟩
        (fun _ => true) [] [⟨lit "u1", lit "bot", lit "key1", true, lit "cat", none⟩]
        (lit "key1") (lit "q")).2.2
      = .ok [(lit "answer", .pyStr (lit "hi")), (lit "tokens_used", .pyInt 12)] ∧
    (update_tokens (fun _ => true) 0 [] (lit "u1") (strLower (lit "bot"))
        (lit "ask_query") 12).1
      = (init_bot_tokens (fun _ => true) 0 [] (lit "u1")
          (strLower (strLower (lit "bot")))).1 ∧
    (docs_file
        ⟨[], fun s => [s], fun b => b, fun b => b, fun b => b, fun _ => .ok .pyNone,
         fun _ => .ok ([1], 5), fun _ => lit "aaaaaaaa"⟩
        (fun _ => true) [] [⟨lit "u1", lit "faq", lit "key9", true, lit "cat", none⟩]
        (lit "u1") (lit "guide.txt") (lit "hi there") (lit "faq")).2.2
      = .error (.keyError (lit "tokens_used")) := by
  have h := tracker_failure_never_blocks_ask.1
    ⟨[indexNameOf (lit "u1")], fun _ => .ok [1], fun _ _ _ _ => [],
     fun _ => .ok (lit "hi", ⟨7, 5, 12⟩)⟩
    (fun _ => true) [] [⟨lit "u1", lit "bot", lit "key1", true, lit "cat", none⟩]
    (lit "key1") (lit "q") (lit "u1") (lit "bot")
    [QueryEvent.embedCall (lit "q"),
     .indexQueryCall (queryNamespaceOf (lit "bot")) 3,
     .chatCall (promptOf noContextMsg (lit "q"))]
    (lit "hi") ⟨7, 5, 12⟩ (by decide) rfl
  have h2 := tracker_failure_never_blocks_ask.2
    ⟨[], fun s => [s], fun b => b, fun b => b, fun b => b, fun _ => .ok .pyNone,
     fun _ => .ok ([1], 5), fun _ => lit "aaaaaaaa"⟩
    (fun _ => true) [] [⟨lit "u1", lit "faq", lit "key9", true, lit "cat", none⟩]
    (lit "u1") (lit "guide.txt") (lit "hi there") (lit "faq") (lit "key9") _ _
    rfl rfl rfl
  exact ⟨h.1, h.2 storageErrMsg rfl, h2.1⟩

/-- Counterexample for C10 as stated: an ingestion request does not "still
succeed and return its normal response" — it never reaches the recording
step at all: the docs_file route raises KeyError at result["tokens_used"]
and leaves the ledger untouched. -/
theorem ingestion_never_reaches_recording :
    (docs_file
        ⟨[], fun s => [s], fun b => b, fun b => b, fun b => b, fun _ => .ok .pyNone,
         fun _ => .ok ([1], 5), fun _ => lit "aaaaaaaa"⟩
        (fun _ => true) [] [⟨lit "u1", lit "faq2", lit "key9", true, lit "cat", none⟩]
        (lit "u1") (lit "note.txt") (lit "hello world") (lit "faq2")).2.2
      = .error (.keyError (lit "tokens_used")) ∧
    (docs_file
        ⟨[], fun s => [s], fun b => b, fun b => b, fun b => b, fun _ => .ok .pyNone,
         fun _ => .ok ([1], 5), fun _ => lit "aaaaaaaa"⟩
        (fun _ => true) [] [⟨lit "u1", lit "faq2", lit "key9", true, lit "cat", none⟩]
        (lit "u1") (lit "note.txt") (lit "hello world") (lit "faq2")).2.1 = [] := by
  refine ⟨rfl, rfl⟩

/-- Claim C1 (code bug): on a successful ingestion the result dict holds
exactly the keys chunks_indexed, index_name and namespace — there is no
tokens_used key and the embedding usage is never accumulated — so the
docs_file route, which reads result["tokens_used"] to persist it, raises
KeyError instead of returning and recording. -/
theorem ingestion_result_lacks_tokens_used :
    (process_and_index_data
        ⟨[], fun s => [s], fun b => b, fun b => b, fun b => b, fun _ => .ok .pyNone,
         fun _ => .ok ([1], 5), fun _ => lit "aaaaaaaa"⟩
        (lit "u1") (some (lit "notes.txt")) (some (lit "hello")) none none none
        (some (lit "bot"))).2
      = .ok [(lit "chunks_indexed", .pyInt 1),
             (lit "index_name", .pyStr (lit "snobbots-u1")),
             (lit "namespace", .pyStr (lit "bot"))] ∧
    assocGet [(lit "chunks_indexed", PyVal.pyInt 1),
              (lit "index_name", PyVal.pyStr (lit "snobbots-u1")),
              (lit "namespace", PyVal.pyStr (lit "bot"))] (lit "tokens_used") = none ∧
    (docs_file
        ⟨[], fun s => [s], fun b => b, fun b => b, fun b => b, fun _ => .ok .pyNone,
         fun _ => .ok ([1], 5), fun _ => lit "aaaaaaaa"⟩
        noFail [] [⟨lit "u1", lit "bot", lit "key1", true, lit "cat", none⟩]
        (lit "u1") (lit "notes.txt") (lit "hello") (lit "bot")).2.2
      = .error (.keyError (lit "tokens_used")) := by
  refine ⟨rfl, rfl, rfl⟩

/-- Claim C6: with a fresh title, creating the 5th bot (the tenant owns 4)
succeeds and inserts the new key row; with 5 or more bots the call is
rejected with the limit-exceeded detail (re-wrapped by the catch-all handler
as a 500 whose detail embeds "403: You already have N chatbots. Maximum limit
is 5. ...") and the table is unchanged — no API key row is inserted. -/
theorem bot_limit_enforced :
    ∀ (bots : List BotRow) (suffix u title cat : Str) (desc : Option Str),
      bots.filter (fun r => decide (r.user_id = u ∧ r.chatbot_title = strLower title)) = [] →
      ((bots.filter (fun r => decide (r.user_id = u))).length = 4 →
        create_chatbot_api suffix bots u title cat desc
          = (bots ++ [⟨u, strLower title, lit "snb_" ++ suffix, true, cat, desc⟩],
             .ok ⟨lit "snb_" ++ suffix, lit "API key created successfully", cat, desc⟩)) ∧
      ((bots.filter (fun r => decide (r.user_id = u))).length ≥ 5 →
        create_chatbot_api suffix bots u title cat desc
          = (bots, .error (.httpError 500 (lit "API key creation failed: "
              ++ pyErrStr (.httpError 403
                   (limitDetail (bots.filter (fun r => decide (r.user_id = u))).length)))))) := by
  intro bots suffix u title cat desc hfresh
  constructor
  · intro hcount
    unfold create_chatbot_api create_chatbot_body
    dsimp only
    rw [hfresh, hcount]
    rfl
  · intro hcount
    unfold create_chatbot_api create_chatbot_body
    dsimp only
    rw [hfresh, if_pos hcount]

/-- Witness for C6: a tenant with 4 bots succeeds in creating a 5th; a tenant
with 5 bots is rejected and no row is inserted. -/
theorem bot_limit_enforced_witness :
    create_chatbot_api (lit "sfx") [⟨lit "u1", lit "b1", lit "k1", true, lit "c", none⟩,
        ⟨lit "u1", lit "b2", lit "k2", true, lit "c", none⟩,
        ⟨lit "u1", lit "b3", lit "k3", true, lit "c", none⟩,
        ⟨lit "u1", lit "b4", lit "k4", true, lit "c", none⟩]
      (lit "u1") (lit "b5") (lit "c") none
      = ([⟨lit "u1", lit "b1", lit "k1", true, lit "c", none⟩,
          ⟨lit "u1", lit "b2", lit "k2", true, lit "c", none⟩,
          ⟨lit "u1", lit "b3", lit "k3", true, lit "c", none⟩,
          ⟨lit "u1", lit "b4", lit "k4", true, lit "c", none⟩,
          ⟨lit "u1", lit "b5", lit "snb_" ++ lit "sfx", true, lit "c", none⟩],
         .ok ⟨lit "snb_" ++ lit "sfx", lit "API key created successfully", lit "c", none⟩) ∧
    create_chatbot_api (lit "sfx") [⟨lit "u1", lit "b1", lit "k1", true, lit "c", none⟩,
        ⟨lit "u1", lit "b2", lit "k2", true, lit "c", none⟩,
        ⟨lit "u1", lit "b3", lit "k3", true, lit "c", none⟩,
        ⟨lit "u1", lit "b4", lit "k4", true, lit "c", none⟩,
        ⟨lit "u1", lit "b5", lit "k5", true, lit "c", none⟩]
      (lit "u1") (lit "b6") (lit "c") none
      = ([⟨lit "u1", lit "b1", lit "k1", true, lit "c", none⟩,
          ⟨lit "u1", lit "b2", lit "k2", true, lit "c", none⟩,
          ⟨lit "u1", lit "b3", lit "k3", true, lit "c", none⟩,
          ⟨lit "u1", lit "b4", lit "k4", true, lit "c", none⟩,
          ⟨lit "u1", lit "b5", lit "k5", true, lit "c", none⟩],
         .error (.httpError 500 (lit "API key creation failed: "
            ++ pyErrStr (.httpError 403 (limitDetail 5))))) := by
  have h := bot_limit_enforced [⟨lit "u1", lit "b1", lit "k1", true, lit "c", none⟩,
      ⟨lit "u1", lit "b2", lit "k2", true, lit "c", none⟩,
      ⟨lit "u1", lit "b3", lit "k3", true, lit "c", none⟩,
      ⟨lit "u1", lit "b4", lit "k4", true, lit "c", none⟩]
    (lit "sfx") (lit "u1") (lit "b5") (lit "c") none (by decide)
  have h2 := bot_limit_enforced [⟨lit "u1", lit "b1", lit "k1", true, lit "c", none⟩,
      ⟨lit "u1", lit "b2", lit "k2", true, lit "c", none⟩,
      ⟨lit "u1", lit "b3", lit "k3", true, lit "c", none⟩,
      ⟨lit "u1", lit "b4", lit "k4", true, lit "c", none⟩,
      ⟨lit "u1", lit "b5", lit "k5", true, lit "c", none⟩]
    (lit "sfx") (lit "u1") (lit "b6") (lit "c") none (by decide)
  refine ⟨?_, ?_⟩
  · have := h.1 (by decide)
    simpa using this
  · have := h2.2 (by decide)
    simpa using this

theorem embedLoop_no_upsert (env : IngestEnv) (u : Str) :
    ∀ (chunks : List Chunk) (i : Nat) (vs : List VectorRecord) (ns : Str),
      IngestEvent.upsertCall vs ns ∉ (embedLoop env u chunks i).1 := by
  intro chunks
  induction chunks with
  | nil => intro i vs ns; simp [embedLoop]
  | cons c rest ih =>
    intro i vs ns
    simp only [embedLoop]
    cases hembed : env.embed c.text with
    | error e => simp
    | ok p =>
      obtain ⟨vec, usage⟩ := p
      cases hrec : embedLoop env u rest (i + 1) with
      | mk evs res =>
        have ih2 := ih (i + 1) vs ns
        rw [hrec] at ih2
        cases res with
        | error e2 => simpa using ih2
        | ok vsr => simpa using ih2

theorem embedLoop_ok_char (env : IngestEnv) (u : Str) :
    ∀ (chunks : List Chunk) (i : Nat) (evs : List IngestEvent) (vsr : List VectorRecord),
      embedLoop env u chunks i = (evs, .ok vsr) →
      evs = chunks.map (fun c => IngestEvent.embedCall c.text) ∧
      vsr.length = chunks.length ∧
      (∀ c ∈ chunks, ∃ vec tok, env.embed c.text = .ok (vec, tok)) := by
  intro chunks
  induction chunks with
  | nil =>
    intro i evs vsr h
    simp only [embedLoop] at h
    obtain ⟨h1, h2⟩ := Prod.mk.injEq .. ▸ h
    injection h with he hr
    injection hr with hv
    subst he
    simp [← hv]
  | cons c rest ih =>
    intro i evs vsr h
    simp only [embedLoop] at h
    cases hembed : env.embed c.text with
    | error e => rw [hembed] at h; exact absurd h (by simp)
    | ok p =>
      obtain ⟨vec, usage⟩ := p
      rw [hembed] at h
      cases hrec : embedLoop env u rest (i + 1) with
      | mk evs2 res =>
        rw [hrec] at h
        cases res with
        | error e2 => exact absurd h (by simp)
        | ok vs2 =>
          simp only at h
          injection h with he hr
          injection hr with hv
          obtain ⟨ih1, ih2, ih3⟩ := ih (i + 1) evs2 vs2 hrec
          subst he
          constructor
          · simp [ih1]
          constructor
          · rw [← hv]
            simp [ih2]
          · intro c2 hc2
            rcases List.mem_cons.mp hc2 with hc2 | hc2
            · exact ⟨vec, usage, hc2 ▸ hembed⟩
            · exact ih3 c2 hc2

theorem embedLoop_error_of_bad (env : IngestEnv) (u : Str) :
    ∀ (chunks : List Chunk) (i : Nat) (c : Chunk), c ∈ chunks →
      (∀ vec tok, env.embed c.text ≠ .ok (vec, tok)) →
      ∀ evs vsr, embedLoop env u chunks i ≠ (evs, .ok vsr) := by
  intro chunks i c hc hbad evs vsr h
  obtain ⟨_, _, hall⟩ := embedLoop_ok_char env u chunks i evs vsr h
  obtain ⟨vec, tok, hok⟩ := hall c hc
  exact hbad vec tok hok

/-- Claim C8: within one ingestion call no vector reaches the index before
every chunk of the call has been embedded — the successful trace is exactly
(optional container creation), then one embedding call per chunk in order,
then a single batch upsert of all records into the bot namespace as the last
event; if any embedding fails, or the call fails earlier, no upsert event
occurs at all. -/
theorem upsert_only_after_all_embeddings :
    ∀ (env : IngestEnv) (u : Str) (fn fb raw : Option Str) (qa : Option PyVal)
      (st : Option Str) (title : Option Str),
      (∀ vs ns, IngestEvent.upsertCall vs ns
          ∈ (process_and_index_data env u fn fb raw qa st title).1 →
        ∃ chunks, collectChunks env fn fb raw qa st = .ok chunks ∧
          (∀ c ∈ chunks, ∃ vec tok, env.embed c.text = .ok (vec, tok)) ∧
          vs.length = chunks.length ∧
          (∃ t, title = some t ∧ ns = ingestNamespaceOf t) ∧
          (process_and_index_data env u fn fb raw qa st title).1
            = (if indexNameOf u ∈ env.existingIndexes then ([] : List IngestEvent)
               else [.createIndexCall (indexNameOf u)])
              ++ chunks.map (fun c => IngestEvent.embedCall c.text)
              ++ [.upsertCall vs ns] ∧
          (∃ out, (process_and_index_data env u fn fb raw qa st title).2 = .ok out)) ∧
      (∀ chunks c, collectChunks env fn fb raw qa st = .ok chunks → c ∈ chunks →
        (∀ vec tok, env.embed c.text ≠ .ok (vec, tok)) →
        (∀ vs ns, IngestEvent.upsertCall vs ns
            ∉ (process_and_index_data env u fn fb raw qa st title).1) ∧
        (∃ e, (process_and_index_data env u fn fb raw qa st title).2 = .error e)) := by
  intro env u fn fb raw qa st title
  have hev0 : ∀ vs ns, IngestEvent.upsertCall vs ns
      ∉ (if indexNameOf u ∈ env.existingIndexes then ([] : List IngestEvent)
         else [.createIndexCall (indexNameOf u)]) := by
    intro vs ns
    by_cases hidx : indexNameOf u ∈ env.existingIndexes <;> simp [hidx]
  unfold process_and_index_data
  dsimp only
  cases title with
  | none =>
    dsimp only
    refine ⟨fun vs ns hmem => absurd hmem (hev0 vs ns), fun chunks c _ _ _ => ?_⟩
    exact ⟨fun vs ns => hev0 vs ns, ⟨_, rfl⟩⟩
  | some t =>
    dsimp only
    by_cases ht : t.isEmpty
    · rw [if_pos ht]
      refine ⟨fun vs ns hmem => absurd hmem (hev0 vs ns), fun chunks c _ _ _ => ?_⟩
      exact ⟨fun vs ns => hev0 vs ns, ⟨_, rfl⟩⟩
    · rw [if_neg ht]
      cases hcollect : collectChunks env fn fb raw qa st with
      | error e =>
        dsimp only
        refine ⟨fun vs ns hmem => absurd hmem (hev0 vs ns), fun chunks c hch _ _ => ?_⟩
        exact absurd hch (by simp)
      | ok chunks =>
        dsimp only
        by_cases hchunks : chunks.isEmpty
        · rw [if_pos hchunks]
          refine ⟨fun vs ns hmem => absurd hmem (hev0 vs ns), fun chunks2 c hch hc _ => ?_⟩
          have hceq : chunks2 = chunks := by
            injection hch with h2
            exact h2.symm
          subst hceq
          rw [List.isEmpty_iff] at hchunks
          subst hchunks
          exact absurd hc (by simp)
        · rw [if_neg hchunks]
          cases hloop : embedLoop env u chunks 0 with
          | mk evs res =>
            cases res with
            | error e =>
              have hnoup : ∀ vs ns, IngestEvent.upsertCall vs ns ∉
                  (if indexNameOf u ∈ env.existingIndexes then ([] : List IngestEvent)
                   else [.createIndexCall (indexNameOf u)]) ++ evs := by
                intro vs ns hmem
                rcases List.mem_append.mp hmem with hmem | hmem
                · exact hev0 vs ns hmem
                · have := embedLoop_no_upsert env u chunks 0 vs ns
                  rw [hloop] at this
                  exact this hmem
              exact ⟨fun vs ns hmem => absurd hmem (hnoup vs ns),
                     fun chunks2 c hch hc hbad => ⟨hnoup, ⟨_, rfl⟩⟩⟩
            | ok vectors =>
              obtain ⟨hevs, hlen, hall⟩ := embedLoop_ok_char env u chunks 0 evs vectors hloop
              constructor
              · intro vs ns hmem
                have hx : IngestEvent.upsertCall vs ns
                    = IngestEvent.upsertCall vectors (ingestNamespaceOf t) := by
                  rcases List.mem_append.mp hmem with hmem | hmem
                  · rcases List.mem_append.mp hmem with hmem | hmem
                    · exact absurd hmem (hev0 vs ns)
                    · have := embedLoop_no_upsert env u chunks 0 vs ns
                      rw [hloop] at this
                      exact absurd hmem this
                  · simpa using hmem
                injection hx with hvs hns
                subst hvs
                subst hns
                exact ⟨chunks, rfl, hall, hlen, ⟨t, rfl, rfl⟩, by rw [hevs], ⟨_, rfl⟩⟩
              · intro chunks2 c hch hc hbad
                have hceq2 : chunks2 = chunks := by
                  injection hch with h2
                  exact h2.symm
                subst hceq2
                obtain ⟨vec, tok, hok⟩ := hall c hc
                exact absurd hok (hbad vec tok)

/-- Witness for C8: a concrete one-chunk raw-text ingestion with a
succeeding embedding service returns a result, and with a failing embedding
service no upsert event is ever emitted. -/
theorem upsert_only_after_all_embeddings_witness :
    (∃ out, (process_and_index_data
        ⟨[], fun s => [s], fun b => b, fun b => b, fun b => b, fun _ => .ok .pyNone,
         fun _ => .ok ([1], 5), fun _ => lit "aaaaaaaa"⟩
        (lit "u1") none none (some (lit "hello")) none none (some (lit "bot"))).2
      = .ok out) ∧
    (∀ vs ns, IngestEvent.upsertCall vs ns ∉
      (process_and_index_data
        ⟨[], fun s => [s], fun b => b, fun b => b, fun b => b, fun _ => .ok .pyNone,
         fun _ => .error (lit "down"), fun _ => lit "aaaaaaaa"⟩
        (lit "u1") none none (some (lit "hello")) none none (some (lit "bot"))).1) := by
  constructor
  · exact ⟨_, rfl⟩
  · intro vs ns
    exact ((upsert_only_after_all_embeddings
        ⟨[], fun s => [s], fun b => b, fun b => b, fun b => b, fun _ => .ok .pyNone,
         fun _ => .error (lit "down"), fun _ => lit "aaaaaaaa"⟩
        (lit "u1") none none (some (lit "hello")) none none (some (lit "bot"))).2
      [⟨lit "hello", lit "raw_text"⟩] ⟨lit "hello", lit "raw_text"⟩ rfl
      (by simp) (fun vec tok h => by injection h)).1 vs ns

theorem assocGet_qa_question (x y : PyVal) :
    assocGet [(lit "question", x), (lit "answer", y)] (lit "question") = some x := by
  simp [assocGet]

theorem assocGet_qa_answer (x y : PyVal) :
    assocGet [(lit "question", x), (lit "answer", y)] (lit "answer") = some y := by
  have hne : ¬ (lit "question" = lit "answer") := by decide
  simp [assocGet, hne]

theorem buildQAChunks_strings (pairs : List (Str × Str)) :
    buildQAChunks (pairs.map (fun p => PyVal.pyDict
        [(lit "question", .pyStr p.1), (lit "answer", .pyStr p.2)]))
      = .ok ((pairs.filter (fun p => !(pyStrip p.1).isEmpty && !(pyStrip p.2).isEmpty)).map
          (fun p => ⟨lit "Q: " ++ pyStrip p.1 ++ lit "\n" ++ lit "A: " ++ pyStrip p.2,
                     lit "qa_json"⟩)) := by
  induction pairs with
  | nil => rfl
  | cons p rest ih =>
    obtain ⟨q, a⟩ := p
    simp only [List.map_cons, buildQAChunks, pyGetD, assocGet_qa_question, assocGet_qa_answer,
      Option.getD_some, pyStripVal, ih, List.filter_cons]
    by_cases hcond : (!(pyStrip q).isEmpty && !(pyStrip a).isEmpty) = true
    · simp [hcond]
    · simp only [Bool.not_eq_true] at hcond
      simp [hcond]

theorem isQAItemB_strings (q a : Str) :
    isQAItemB (PyVal.pyDict [(lit "question", .pyStr q), (lit "answer", .pyStr a)]) = true := by
  simp [isQAItemB, assocGet_qa_question, assocGet_qa_answer]

/-- Claim C4 (amended): each QA pair whose stripped question and stripped
answer are both non-empty yields exactly one chunk with text
"Q: {question.strip()}\nA: {answer.strip()}"; pairs with a blank question or
answer are dropped. Hence a list in which every pair is non-blank yields
exactly N chunks, in order, and the QA path never consults the text splitter,
so the chunk-size parameters are irrelevant. -/
theorem qa_pairs_chunking :
    (∀ pairs : List (Str × Str),
      buildQAChunks (pairs.map (fun p => PyVal.pyDict
          [(lit "question", .pyStr p.1), (lit "answer", .pyStr p.2)]))
        = .ok ((pairs.filter (fun p => !(pyStrip p.1).isEmpty && !(pyStrip p.2).isEmpty)).map
            (fun p => ⟨lit "Q: " ++ pyStrip p.1 ++ lit "\n" ++ lit "A: " ++ pyStrip p.2,
                       lit "qa_json"⟩))) ∧
    (∀ (env : IngestEnv) (pairs : List (Str × Str)),
      (∀ p ∈ pairs, (pyStrip p.1).isEmpty = false ∧ (pyStrip p.2).isEmpty = false) →
      collectChunks env none none none
          (some (.pyList (pairs.map (fun p => PyVal.pyDict
            [(lit "question", .pyStr p.1), (lit "answer", .pyStr p.2)])))) none
        = .ok (pairs.map
            (fun p => ⟨lit "Q: " ++ pyStrip p.1 ++ lit "\n" ++ lit "A: " ++ pyStrip p.2,
                       lit "qa_json"⟩))) ∧
    (∀ (env : IngestEnv) (spl : Str → List Str) (qa : Option PyVal),
      collectChunks { env with splitText := spl } none none none qa none
        = collectChunks env none none none qa none) := by
  refine ⟨buildQAChunks_strings, ?_, ?_⟩
  · intro env pairs hnb
    cases pairs with
    | nil => rfl
    | cons p rest =>
      unfold collectChunks fileChunks rawChunks qaChunks
      dsimp only
      have htruthy : pyTruthyB (.pyList ((p :: rest).map (fun p => PyVal.pyDict
          [(lit "question", .pyStr p.1), (lit "answer", .pyStr p.2)]))) = true := by
        simp [pyTruthyB]
      rw [if_pos htruthy]
      have hall : ((p :: rest).map (fun p => PyVal.pyDict
          [(lit "question", .pyStr p.1), (lit "answer", .pyStr p.2)])).all isQAItemB = true := by
        rw [List.all_eq_true]
        intro x hx
        rcases List.mem_map.mp hx with ⟨p2, _, hp2⟩
        rw [← hp2]
        exact isQAItemB_strings p2.1 p2.2
      simp only [qaNormalize, pyIter, hall, if_true]
      rw [buildQAChunks_strings]
      have hfilter : (p :: rest).filter
          (fun p => !(pyStrip p.1).isEmpty && !(pyStrip p.2).isEmpty) = p :: rest := by
        rw [List.filter_eq_self]
        intro p2 hp2
        obtain ⟨h1, h2⟩ := hnb p2 hp2
        simp [h1, h2]
      rw [hfilter]
      simp
  · intro env spl qa
    cases qa with
    | none => rfl
    | some v => rfl

/-- Witness for C4: two concrete non-blank pairs produce exactly their two
formatted chunks. -/
theorem qa_pairs_chunking_witness :
    collectChunks
        ⟨[], fun s => [s], fun b => b, fun b => b, fun b => b, fun _ => .ok .pyNone,
         fun _ => .ok ([1], 5), fun _ => lit "aaaaaaaa"⟩
        none none none
        (some (.pyList [PyVal.pyDict [(lit "question", .pyStr (lit "q1")),
                                      (lit "answer", .pyStr (lit "a1"))],
                        PyVal.pyDict [(lit "question", .pyStr (lit "q2")),
                                      (lit "answer", .pyStr (lit "a2"))]])) none
      = .ok [⟨lit "Q: q1\nA: a1", lit "qa_json"⟩, ⟨lit "Q: q2\nA: a2", lit "qa_json"⟩] := by
  have h := (qa_pairs_chunking.2.1)
    ⟨[], fun s => [s], fun b => b, fun b => b, fun b => b, fun _ => .ok .pyNone,
     fun _ => .ok ([1], 5), fun _ => lit "aaaaaaaa"⟩
    [(lit "q1", lit "a1"), (lit "q2", lit "a2")] (by decide)
  simpa using h

/-- Counterexample for C4 as stated: a 2-pair list in which the first
question carries surrounding spaces and the second answer is blank yields one
chunk, not two, and the produced text is built from the stripped question,
not the raw one. -/
theorem qa_pairs_strip_and_skip :
    (process_and_index_data
        ⟨[], fun s => [s], fun b => b, fun b => b, fun b => b, fun _ => .ok .pyNone,
         fun _ => .ok ([1], 5), fun _ => lit "aaaaaaaa"⟩
        (lit "u1") none none none
        (some (.pyList [PyVal.pyDict [(lit "question", .pyStr (lit " q1 ")),
                                      (lit "answer", .pyStr (lit "a1"))],
                        PyVal.pyDict [(lit "question", .pyStr (lit "q2")),
                                      (lit "answer", .pyStr (lit ""))]])) none
        (some (lit "bot"))).2
      = .ok [(lit "chunks_indexed", .pyInt 1),
             (lit "index_name", .pyStr (lit "snobbots-u1")),
             (lit "namespace", .pyStr (lit "bot"))] ∧
    (process_and_index_data
        ⟨[], fun s => [s], fun b => b, fun b => b, fun b => b, fun _ => .ok .pyNone,
         fun _ => .ok ([1], 5), fun _ => lit "aaaaaaaa"⟩
        (lit "u1") none none none
        (some (.pyList [PyVal.pyDict [(lit "question", .pyStr (lit " q1 ")),
                                      (lit "answer", .pyStr (lit "a1"))],
                        PyVal.pyDict [(lit "question", .pyStr (lit "q2")),
                                      (lit "answer", .pyStr (lit ""))]])) none
        (some (lit "bot"))).1
      = [.createIndexCall (lit "snobbots-u1"),
         .embedCall (lit "Q: q1\nA: a1"),
         .upsertCall [⟨lit "u1_qa_json_0_aaaaaaaa", [1], lit "Q: q1\nA: a1",
                       lit "qa_json", lit "u1"⟩] (lit "bot")] ∧
    lit "Q: q1\nA: a1" ≠ lit "Q:  q1 \nA: a1" := by
  refine ⟨rfl, rfl, by decide⟩

/-- Claim C5 (amended): every present (truthy) qa_json value that fails QA
normalization or validation is rejected before any embedding call, with zero
embedding calls made; the rejection is InvalidInput (ValueError) for a
malformed list, for a non-list non-string value and for an unparsable JSON
string, while a JSON string that parses to a non-iterable value raises
TypeError from the validation loop itself — still before any embedding call.
(Falsy values such as 0, "" or [] are treated as absent, not malformed: see
the counterexample.) -/
theorem qa_malformed_rejected_before_embedding :
    (∀ (env : IngestEnv) (u : Str) (fn fb raw st : Option Str) (title : Option Str)
        (v : PyVal) (e : PyErr),
      pyTruthyB v = true →
      qaChunks env (some v) = .error e →
      (process_and_index_data env u fn fb raw (some v) st title).1.countP
          (fun ev => match ev with | .embedCall _ => true | _ => false) = 0 ∧
      (∃ err, (process_and_index_data env u fn fb raw (some v) st title).2 = .error err)) ∧
    (∀ (env : IngestEnv) (items : List PyVal),
      pyTruthyB (.pyList items) = true →
      items.all isQAItemB = false →
      qaChunks env (some (.pyList items))
        = .error (.valueError (lit "qa_json must be a list of \x7bquestion, answer\x7d objects"))) ∧
    (∀ (env : IngestEnv) (v : PyVal),
      pyTruthyB v = true →
      (∀ s, v ≠ .pyStr s) → (∀ items, v ≠ .pyList items) →
      qaChunks env (some v)
        = .error (.valueError (lit "qa_json must be a JSON string or a list"))) ∧
    (∀ (env : IngestEnv) (s msg : Str),
      pyTruthyB (.pyStr s) = true →
      env.jsonLoads s = .error msg →
      qaChunks env (some (.pyStr s))
        = .error (.valueError (lit "Invalid QA JSON string format: " ++ msg))) ∧
    (∀ (env : IngestEnv) (s : Str) (w : PyVal) (e : PyErr),
      pyTruthyB (.pyStr s) = true →
      env.jsonLoads s = .ok w →
      pyIter w = .error e →
      qaChunks env (some (.pyStr s)) = .error e ∧ ∃ m, e = .typeError m) := by
  refine ⟨?_, ?_, ?_, ?_, ?_⟩
  · intro env u fn fb raw st title v e htruthy hqa
    have hcol : ∃ e2, collectChunks env fn fb raw (some v) st = .error e2 := by
      unfold collectChunks
      cases hfc : fileChunks env fn fb with
      | error e1 => exact ⟨e1, rfl⟩
      | ok fcs =>
        dsimp only
        rw [hqa]
        exact ⟨e, rfl⟩
    obtain ⟨e2, hcol⟩ := hcol
    have hev0 : (if indexNameOf u ∈ env.existingIndexes then ([] : List IngestEvent)
        else [.createIndexCall (indexNameOf u)]).countP
          (fun ev => match ev with | .embedCall _ => true | _ => false) = 0 := by
      by_cases hidx : indexNameOf u ∈ env.existingIndexes <;> simp [hidx]
    unfold process_and_index_data
    dsimp only
    cases title with
    | none => exact ⟨hev0, ⟨_, rfl⟩⟩
    | some t =>
      dsimp only
      by_cases ht : t.isEmpty
      · rw [if_pos ht]
        exact ⟨hev0, ⟨_, rfl⟩⟩
      · rw [if_neg ht, hcol]
        exact ⟨hev0, ⟨e2, rfl⟩⟩
  · intro env items htruthy hall
    simp [qaChunks, htruthy, qaNormalize, pyIter, hall]
  · intro env v htruthy hs hl
    cases v with
    | pyStr s => exact absurd rfl (hs s)
    | pyList items => exact absurd rfl (hl items)
    | pyInt n => simp [qaChunks, htruthy, qaNormalize]
    | pyBool b => simp [qaChunks, htruthy, qaNormalize]
    | pyNone => exact absurd htruthy (by simp [pyTruthyB])
    | pyDict kvs => simp [qaChunks, htruthy, qaNormalize]
  · intro env s msg htruthy hload
    simp [qaChunks, htruthy, qaNormalize, hload]
  · intro env s w e htruthy hload hiter
    refine ⟨by simp [qaChunks, htruthy, qaNormalize, hload, hiter], ?_⟩
    cases w with
    | pyStr s2 => exact absurd hiter (by simp [pyIter])
    | pyList items => exact absurd hiter (by simp [pyIter])
    | pyDict kvs => exact absurd hiter (by simp [pyIter])
    | pyInt n =>
      injection hiter with h
      exact ⟨lit "object is not iterable", h.symm⟩
    | pyBool b =>
      injection hiter with h
      exact ⟨lit "object is not iterable", h.symm⟩
    | pyNone =>
      injection hiter with h
      exact ⟨lit "object is not iterable", h.symm⟩

/-- Witness for C5: a list of strings (the claim example) is rejected with
zero embedding calls and an error result. -/
theorem qa_malformed_rejected_before_embedding_witness :
    (process_and_index_data
        ⟨[], fun s => [s], fun b => b, fun b => b, fun b => b, fun _ => .ok .pyNone,
         fun _ => .ok ([1], 5), fun _ => lit "aaaaaaaa"⟩
        (lit "u1") none none none (some (.pyList [.pyStr (lit "x")])) none
        (some (lit "bot"))).1.countP
        (fun ev => match ev with | .embedCall _ => true | _ => false) = 0 ∧
    (∃ err, (process_and_index_data
        ⟨[], fun s => [s], fun b => b, fun b => b, fun b => b, fun _ => .ok .pyNone,
         fun _ => .ok ([1], 5), fun _ => lit "aaaaaaaa"⟩
        (lit "u1") none none none (some (.pyList [.pyStr (lit "x")])) none
        (some (lit "bot"))).2 = .error err) :=
  qa_malformed_rejected_before_embedding.1
    ⟨[], fun s => [s], fun b => b, fun b => b, fun b => b, fun _ => .ok .pyNone,
     fun _ => .ok ([1], 5), fun _ => lit "aaaaaaaa"⟩
    (lit "u1") none none none none (some (lit "bot")) (.pyList [.pyStr (lit "x")])
    (.valueError (lit "qa_json must be a list of \x7bquestion, answer\x7d objects"))
    rfl rfl

/-- Counterexample for C5 as stated: the malformed (non-list) value 0 is
falsy, so the QA branch silently skips it; with a raw text alongside, the
ingestion succeeds and makes an embedding call instead of failing with
InvalidInput before any embedding call. -/
theorem falsy_malformed_qa_is_ignored :
    (process_and_index_data
        ⟨[], fun s => [s], fun b => b, fun b => b, fun b => b, fun _ => .ok .pyNone,
         fun _ => .ok ([1], 5), fun _ => lit "aaaaaaaa"⟩
        (lit "u1") none none (some (lit "hello")) (some (.pyInt 0)) none
        (some (lit "bot"))).2
      = .ok [(lit "chunks_indexed", .pyInt 1),
             (lit "index_name", .pyStr (lit "snobbots-u1")),
             (lit "namespace", .pyStr (lit "bot"))] ∧
    (process_and_index_data
        ⟨[], fun s => [s], fun b => b, fun b => b, fun b => b, fun _ => .ok .pyNone,
         fun _ => .ok ([1], 5), fun _ => lit "aaaaaaaa"⟩
        (lit "u1") none none (some (lit "hello")) (some (.pyInt 0)) none
        (some (lit "bot"))).1.countP
        (fun ev => match ev with | .embedCall _ => true | _ => false) = 1 := by
  refine ⟨rfl, rfl⟩

end Snobbots
